import Mathlib

/-!
Verification development for the Analysis Orchestration Core of the
`data-analyst` repository: a shallow embedding of the SQL safety gate,
the chart inference engine, the trust scorer, the primary-probe
selection heuristic and the regression preparation pipeline, together
with theorems settling the specification's claims.

Numeric values (Python ints/floats) are modelled by `ℚ`; external
string parsers (Python `float`, `datetime.fromisoformat`,
`pandas.to_datetime`) are modelled by executable recognizers over the
common numeric / ISO-date grammars.
-/

namespace DataAnalyst

/-- A cell value as it appears in a JSON-encoded result row:
null, boolean, number (modelled exactly by `ℚ`) or string. -/
inductive Value where
  | vNull : Value
  | vBool (b : Bool) : Value
  | vNum (q : ℚ) : Value
  | vStr (s : String) : Value
deriving DecidableEq, Repr

/-- A result row: a Python dict from column name to value, modelled as
an association list (first binding wins, mirroring unique dict keys). -/
abbrev Row := List (String × Value)

/-- `row.get(key)`: the value bound to `k`, `vNull` when absent
(mirroring Python `dict.get` returning `None`). -/
def Row.get (r : Row) (k : String) : Value :=
  match r.find? (fun p => p.1 = k) with
  | some p => p.2
  | none => Value.vNull

/-- `list(row.keys())`. -/
def Row.keys (r : Row) : List String := r.map Prod.fst

/-- Numeric value of a run of decimal digits. -/
def digitsToNat (cs : List Char) : ℕ :=
  cs.foldl (fun a c => a * 10 + (c.toNat - 48)) 0

/-- Model of Python `float(s)` on the common numeric grammar:
optional surrounding whitespace, optional sign, digits with an optional
decimal point, and an optional exponent. Returns the exact rational. -/
def parseFloat (s : String) : Option ℚ :=
  let cs := s.trim.data
  let (sign, cs1) : ℚ × List Char :=
    match cs with
    | '-' :: rest => (-1, rest)
    | '+' :: rest => (1, rest)
    | _ => (1, cs)
  let intPart := cs1.takeWhile Char.isDigit
  let rest1 := cs1.dropWhile Char.isDigit
  let (fracPart, rest2) : List Char × List Char :=
    match rest1 with
    | '.' :: tail => (tail.takeWhile Char.isDigit, tail.dropWhile Char.isDigit)
    | _ => ([], rest1)
  let hasDot : Bool := match rest1 with | '.' :: _ => true | _ => false
  if intPart.isEmpty ∧ fracPart.isEmpty then none
  else
    let mantissa : ℚ :=
      (digitsToNat intPart : ℚ) + (digitsToNat fracPart : ℚ) / ((10 : ℚ) ^ fracPart.length)
    match rest2 with
    | [] => some (sign * mantissa)
    | 'e' :: tail => parseFloatExp sign mantissa tail
    | 'E' :: tail => parseFloatExp sign mantissa tail
    | '.' :: tail => if hasDot then none else if tail.isEmpty then some (sign * mantissa) else none
    | _ => none
where
  parseFloatExp (sign mantissa : ℚ) (tail : List Char) : Option ℚ :=
    let (esign, t1) : ℤ × List Char :=
      match tail with
      | '-' :: r => (-1, r)
      | '+' :: r => (1, r)
      | _ => (1, tail)
    let eDigits := t1.takeWhile Char.isDigit
    let t2 := t1.dropWhile Char.isDigit
    if eDigits.isEmpty ∨ ¬t2.isEmpty then none
    else some (sign * mantissa * (10 : ℚ) ^ (esign * (digitsToNat eDigits : ℤ)))

/-- Leap-year test on the proleptic Gregorian calendar. -/
def isLeap (y : ℕ) : Bool :=
  (y % 4 = 0 && y % 100 ≠ 0) || y % 400 = 0

/-- Number of days in month `m` of year `y`. -/
def daysInMonth (y m : ℕ) : ℕ :=
  if m = 2 then (if isLeap y then 29 else 28)
  else if m = 4 ∨ m = 6 ∨ m = 9 ∨ m = 11 then 30
  else 31

/-- Days since 1970-01-01 of a civil date. -/
def daysFromCivil (y m d : ℤ) : ℤ :=
  let y1 := if m ≤ 2 then y - 1 else y
  let era := (if y1 ≥ 0 then y1 else y1 - 399) / 400
  let yoe := y1 - era * 400
  let mp := (m + 9) % 12
  let doy := (153 * mp + 2) / 5 + d - 1
  let doe := yoe * 365 + yoe / 4 - yoe / 100 + doy
  era * 146097 + doe - 719468

/-- Parse `HH:MM[:SS[.ffffff]]` and an optional `+HH:MM` / `-HH:MM`
offset; returns seconds past midnight adjusted to UTC. -/
def parseTimePart (cs : List Char) : Option ℚ :=
  match cs with
  | h1 :: h2 :: ':' :: m1 :: m2 :: rest =>
    if [h1, h2, m1, m2].all Char.isDigit then
      let h := digitsToNat [h1, h2]
      let mi := digitsToNat [m1, m2]
      if h < 24 ∧ mi < 60 then
        let (sec, rest2) : ℚ × List Char :=
          match rest with
          | ':' :: s1 :: s2 :: tail =>
            if [s1, s2].all Char.isDigit ∧ digitsToNat [s1, s2] < 60 then
              match tail with
              | '.' :: ftail =>
                let fdigits := ftail.takeWhile Char.isDigit
                ((digitsToNat [s1, s2] : ℚ) +
                  (digitsToNat fdigits : ℚ) / ((10 : ℚ) ^ fdigits.length),
                 ftail.dropWhile Char.isDigit)
              | _ => ((digitsToNat [s1, s2] : ℚ), tail)
            else (0, '?' :: rest)
          | _ => (0, rest)
        let base : ℚ := (h : ℚ) * 3600 + (mi : ℚ) * 60 + sec
        match rest2 with
        | [] => some base
        | osign :: o1 :: o2 :: ':' :: o3 :: o4 :: [] =>
          if (osign = '+' ∨ osign = '-') ∧ [o1, o2, o3, o4].all Char.isDigit then
            let oh := digitsToNat [o1, o2]
            let om := digitsToNat [o3, o4]
            if oh < 24 ∧ om < 60 then
              let off : ℚ := (oh : ℚ) * 3600 + (om : ℚ) * 60
              some (if osign = '+' then base - off else base + off)
            else none
          else none
        | _ => none
      else none
    else none
  | _ => none

/-- Model of an ISO-8601 date/time parser (`datetime.fromisoformat`,
`pandas.to_datetime` on ISO-style input): `YYYY-MM-DD`, optionally
followed by `T` or a space and a time-of-day with optional UTC offset.
Returns epoch seconds. -/
def parseIsoDateTime (s : String) : Option ℚ :=
  match s.data with
  | y1 :: y2 :: y3 :: y4 :: '-' :: m1 :: m2 :: '-' :: d1 :: d2 :: rest =>
    if [y1, y2, y3, y4, m1, m2, d1, d2].all Char.isDigit then
      let y := digitsToNat [y1, y2, y3, y4]
      let m := digitsToNat [m1, m2]
      let d := digitsToNat [d1, d2]
      if 1 ≤ m ∧ m ≤ 12 ∧ 1 ≤ d ∧ d ≤ daysInMonth y m then
        let dayNum : ℚ := ((daysFromCivil y m d : ℤ) : ℚ) * 86400
        match rest with
        | [] => some dayNum
        | 'T' :: tail => (parseTimePart tail).map (fun t => dayNum + t)
        | ' ' :: tail => (parseTimePart tail).map (fun t => dayNum + t)
        | _ => none
      else none
    else none
  | _ => none

/-! ## Chart Inference Engine (`backend/services/runtime/charting.py`) -/

/-- `ChartRuntime._is_numeric`: booleans and null are never numeric;
numbers are; strings are numeric when they parse as a float after
removing commas. -/
def Value.isNumericVal : Value → Bool
  | Value.vBool _ => false
  | Value.vNull => false
  | Value.vNum _ => true
  | Value.vStr s => (parseFloat (remCommas s)).isSome
where
  remCommas (s : String) : String := String.mk (s.data.filter (fun c => c ≠ ','))

/-- `ChartRuntime._to_float`. -/
def Value.toFloat : Value → Option ℚ
  | Value.vNull => none
  | Value.vBool _ => none
  | Value.vNum q => some q
  | Value.vStr s => parseFloat (Value.isNumericVal.remCommas s)

/-- Python `str(value)` for the values a row can hold. -/
def Value.str : Value → String
  | Value.vNull => "None"
  | Value.vBool b => if b then "True" else "False"
  | Value.vNum q => toString q
  | Value.vStr s => s

/-- `ChartRuntime._looks_temporal`: a string that keeps a date-ish
token, is at least 8 characters long and parses as ISO date/time
(after turning a trailing `Z` into an offset). -/
def Value.looksTemporal : Value → Bool
  | Value.vStr s =>
    let raw := s.trim
    if raw = "" then false
    else if (raw.contains '-' || raw.contains '/' || raw.contains ':') ∧ raw.length ≥ 8 then
      (parseIsoDateTime (raw.replace "Z" "+00:00")).isSome
    else false
  | _ => false

/-- Column role assigned by `infer_chart_columns`. -/
inductive Role where
  | numeric | temporal | categorical
deriving DecidableEq, Repr

/-- Classification of one column over the sampled rows: `none` when
every sampled value is null, otherwise numeric / temporal /
categorical by the 0.8 ratio thresholds. -/
def colClass (sample : List Row) (k : String) : Option Role :=
  let values := (sample.map (fun r => r.get k)).filter (fun v => v ≠ Value.vNull)
  if values.isEmpty then none
  else
    let n : ℚ := values.length
    let numericRatio : ℚ := ((values.filter (fun v => v.isNumericVal)).length : ℚ) / n
    let temporalRatio : ℚ := ((values.filter (fun v => v.looksTemporal)).length : ℚ) / n
    if numericRatio ≥ 4 / 5 then some Role.numeric
    else if temporalRatio ≥ 4 / 5 then some Role.temporal
    else some Role.categorical

/-- `ChartRuntime.infer_chart_columns`: sample up to 200 rows and
classify each column of the first row, returning
(numeric, temporal, categorical) key lists in column order. -/
def infer_chart_columns (data : List Row) : List String × List String × List String :=
  match data with
  | [] => ([], [], [])
  | r0 :: _ =>
    let sample := data.take 200
    ((r0.keys).filter (fun k => colClass sample k = some Role.numeric),
     (r0.keys).filter (fun k => colClass sample k = some Role.temporal),
     (r0.keys).filter (fun k => colClass sample k = some Role.categorical))

/-- A chart configuration; absent dict entries are `none`. -/
structure ChartConfig where
  type : Option String
  xKey : Option String
  yKey : Option String
  groupBy : Option String
deriving DecidableEq, Repr

/-- The supported chart types (`CHART_TYPES`). -/
def CHART_TYPES : List String := ["line", "bar", "scatter", "pie", "area"]

/-- `MAX_VIZ_POINTS`. -/
def MAX_VIZ_POINTS : ℕ := 320
/-- `MAX_SCATTER_POINTS`. -/
def MAX_SCATTER_POINTS : ℕ := 700
/-- `MAX_BAR_POINTS`. -/
def MAX_BAR_POINTS : ℕ := 30
/-- `MAX_PIE_POINTS`. -/
def MAX_PIE_POINTS : ℕ := 12

/-- Default x key: first temporal column, else first categorical, else
the first column. -/
def pickDefaultX (temporalKeys categoricalKeys keys : List String) : String :=
  match temporalKeys with
  | t :: _ => t
  | [] =>
    match categoricalKeys with
    | c :: _ => c
    | [] => keys.headD ""

/-- x-key selection: keep the base key when it names a result column,
else fall back to `pickDefaultX`. -/
def pickX : Option String → List String → List String → List String → String
  | some k, keys, temporalKeys, categoricalKeys =>
    if k ∈ keys then k else pickDefaultX temporalKeys categoricalKeys keys
  | none, keys, temporalKeys, categoricalKeys =>
    pickDefaultX temporalKeys categoricalKeys keys

/-- Recomputed y key: the first numeric column (second when the first
collides with x), else the second column, else the first. -/
def recomputeY (xKey : String) (keys numericKeys : List String) : String :=
  match numericKeys with
  | c :: rest =>
    if c = xKey then (match rest with | c2 :: _ => c2 | [] => c) else c
  | [] =>
    match keys with
    | _ :: k2 :: _ => k2
    | [k1] => k1
    | [] => ""

/-- y-key selection: keep the base key when it is a column distinct
from x, else recompute. -/
def pickY : Option String → String → List String → List String → String
  | some k, xKey, keys, numericKeys =>
    if k ∈ keys ∧ k ≠ xKey then k else recomputeY xKey keys numericKeys
  | none, xKey, keys, numericKeys => recomputeY xKey keys numericKeys

/-- Fallback of the proposed chart type to `"bar"` when unsupported. -/
def normChartType : Option String → String
  | some t => if t ∈ CHART_TYPES then t else "bar"
  | none => "bar"

/-- Fallback of the chart type, the x/y key selection and the scatter
override of `normalize_chart_config`, producing (type, xKey, yKey). -/
def normStage1 (keys numericKeys temporalKeys categoricalKeys : List String)
    (base : ChartConfig) : String × String × String :=
  let chartType := normChartType base.type
  let xKey1 := pickX base.xKey keys temporalKeys categoricalKeys
  let yKey1 := pickY base.yKey xKey1 keys numericKeys
  if chartType = "scatter" then
    match numericKeys with
    | a :: b :: _ => ("scatter", a, b)
    | _ => ("bar", xKey1, yKey1)
  else (chartType, xKey1, yKey1)

/-- The line/area temporal x-override of `normalize_chart_config`. -/
def normStage2 (temporalKeys : List String) (s : String × String × String) :
    String × String × String :=
  if (s.1 = "line" ∨ s.1 = "area") ∧ temporalKeys ≠ [] ∧ s.2.1 ∉ temporalKeys
  then (s.1, temporalKeys.headD "", s.2.2) else s

/-- The groupBy filter of `normalize_chart_config`: keep it only when
it names a column distinct from the final x and y keys. -/
def normGroup (keys : List String) (xKey yKey : String) (groupBy : Option String) :
    Option String :=
  match groupBy with
  | some g => if g ∈ keys ∧ g ≠ xKey ∧ g ≠ yKey then some g else none
  | none => none

/-- `ChartRuntime.normalize_chart_config`. -/
def normalize_chart_config (data : List Row) (base : ChartConfig) : ChartConfig :=
  match data with
  | [] => ⟨some "bar", some "", some "", none⟩
  | r0 :: _ =>
    let keys := r0.keys
    let inferred := infer_chart_columns data
    let s := normStage2 inferred.2.1
      (normStage1 keys inferred.1 inferred.2.1 inferred.2.2 base)
    ⟨some s.1, some s.2.1, some s.2.2, normGroup keys s.2.1 s.2.2 base.groupBy⟩

/-- Python slice `data[::step]`: every `step`-th element from the head. -/
def strideSample {α : Type} : List α → ℕ → List α
  | [], _ => []
  | a :: rest, step => a :: strideSample (rest.drop (step - 1)) step
termination_by l _ => l.length
decreasing_by
  simp only [List.length_cons, List.length_drop]
  omega

/-- `ChartRuntime.sample_evenly`: fixed-stride sample, append the final
row when the stride missed it, then truncate to the cap. -/
def sample_evenly (data : List Row) (maxPoints : ℕ) : List Row :=
  if data.length ≤ maxPoints then data
  else
    let step := max 1 (data.length / maxPoints)
    let sampled := strideSample data step
    let sampled2 :=
      match data.getLast? with
      | none => sampled
      | some lastRow =>
        if sampled.getLast? = some lastRow then sampled else sampled ++ [lastRow]
    sampled2.take maxPoints

/-- The x-label and parsed y-value of a row, `none` when the x-value is
null or the y-value is not numeric (such rows are skipped). -/
def parsedEntry (xKey yKey : String) (row : Row) : Option (String × ℚ) :=
  match row.get xKey, (row.get yKey).toFloat with
  | Value.vNull, _ => none
  | _, none => none
  | xv, some q => some (xv.str, q)

/-- `buckets[label] = buckets.get(label, 0.0) + value` on an
insertion-ordered dict. -/
def bucketAdd : List (String × ℚ) → String → ℚ → List (String × ℚ)
  | [], l, q => [(l, q)]
  | (k, v) :: rest, l, q =>
    if k = l then (k, v + q) :: rest else (k, v) :: bucketAdd rest l q

/-- The per-label sum dict built by the aggregation loop. -/
def buildBuckets (data : List Row) (xKey yKey : String) : List (String × ℚ) :=
  data.foldl
    (fun b row =>
      match parsedEntry xKey yKey row with
      | none => b
      | some (l, q) => bucketAdd b l q)
    []

/-- An output bucket row `{x_key: label, y_key: value}` (a later equal
dict key overwrites the earlier one, as in Python). -/
def mkOutRow (xKey yKey label : String) (value : ℚ) : Row :=
  if xKey = yKey then [(yKey, Value.vNum value)]
  else [(xKey, Value.vStr label), (yKey, Value.vNum value)]

/-- `ChartRuntime.aggregate_categories`: sum y per x-label, rank by
absolute sum descending (Python's stable sort), keep the top
`maxPoints - 1` buckets and fold the rest into an `"Other"` bucket. -/
def aggregate_categories (data : List Row) (xKey yKey : String) (maxPoints : ℕ) : List Row :=
  let buckets := buildBuckets data xKey yKey
  let ranked := buckets.insertionSort (fun a b => |b.2| ≤ |a.2|)
  if ranked.length ≤ maxPoints then
    ranked.map (fun p => mkOutRow xKey yKey p.1 p.2)
  else
    let top := ranked.take (maxPoints - 1)
    let otherTotal := ((ranked.drop (maxPoints - 1)).map Prod.snd).sum
    (top.map (fun p => mkOutRow xKey yKey p.1 p.2)) ++ [mkOutRow xKey yKey "Other" otherTotal]

/-- `ChartRuntime.optimize_data_for_chart`. -/
def optimize_data_for_chart (data : List Row) (cfg : ChartConfig) : List Row :=
  if data.isEmpty then data
  else
    match cfg.xKey, cfg.yKey with
    | some xk, some yk =>
      if cfg.type = some "scatter" then sample_evenly data MAX_SCATTER_POINTS
      else if cfg.type = some "line" ∨ cfg.type = some "area" then sample_evenly data MAX_VIZ_POINTS
      else if cfg.type = some "bar" then aggregate_categories data xk yk MAX_BAR_POINTS
      else if cfg.type = some "pie" then aggregate_categories data xk yk MAX_PIE_POINTS
      else sample_evenly data MAX_VIZ_POINTS
    | _, _ => sample_evenly data MAX_VIZ_POINTS

/-! ## Trust Scorer (`backend/services/runtime/trust.py`) -/

/-- Substring search over character lists. -/
def hasSubList (pat : List Char) : List Char → Bool
  | [] => pat.isPrefixOf []
  | c :: rest => pat.isPrefixOf (c :: rest) || hasSubList pat rest

/-- Python `pat in s` substring containment. -/
def strContains (s pat : String) : Bool := hasSubList pat.data s.data

/-- Dataset profile fields consulted by the trust scorer. -/
structure Profile where
  numeric_columns : List String
  temporal_columns : List String
deriving DecidableEq, Repr

/-- The trust layer: confidence score, limitation list and provenance
(without the wall-clock timestamp, which is not modelled). -/
structure TrustLayer where
  confidence_score : ℚ
  limitations : List String
  prov_sql : String
  prov_rows_analyzed : ℕ
  prov_rows_visualized : ℕ
  prov_analysis_type : String
  prov_chart_type : String
  prov_latency_ms : ℚ
deriving Repr

/-- `TrustRuntime._clamp`. -/
def clamp (value lower upper : ℚ) : ℚ := max lower (min upper value)

/-- Python `round(q, n)` modelled with rounding to the nearest value
with `n` decimal digits (all scores fed to it are exact multiples of
`0.01`, so the tie-breaking rule is never exercised). -/
def roundTo (n : ℕ) (q : ℚ) : ℚ := (round (q * (10 : ℚ) ^ n) : ℚ) / (10 : ℚ) ^ n

/-- The pie-cap limitation string. -/
def pieNote : String := "Pie chart may hide detail in long-tail categories."

/-- The sampling limitation string with its interpolated row counts. -/
def vizNote (visualized analyzed : ℕ) : String :=
  "Visualization is sampled/aggregated (" ++ toString visualized ++ " of " ++
    toString analyzed ++ " rows shown)."

/-- Confidence score and limitations before the pie-cap note and the
final clamp: the sequential adjustments of `build_trust_layer`. -/
def trustCore (question analysis_type : String) (row_count visualized_row_count : ℕ)
    (profile : Option Profile) : ℚ × List String :=
  let prof := profile.getD ⟨[], []⟩
  let base : ℚ × List String :=
    if row_count = 0 then (0.08, ["Query returned no rows."])
    else
      let s1 : ℚ × List String :=
        if row_count ≥ 500 then (0.55 + 0.16, [])
        else if row_count ≥ 100 then (0.55 + 0.11, [])
        else if row_count < 20 then (0.55 - 0.12, ["Small sample size may reduce reliability."])
        else (0.55, [])
      let s2 : ℚ × List String :=
        if visualized_row_count < row_count
        then (s1.1 - 0.03, s1.2 ++ [vizNote visualized_row_count row_count])
        else s1
      let s3 : ℚ × List String :=
        if analysis_type = "trend" ∧ prof.temporal_columns = []
        then (s2.1 - 0.12,
          s2.2 ++ ["No strongly typed temporal column detected for trend analysis."])
        else s2
      if analysis_type = "correlation" ∧ prof.numeric_columns.length < 2
      then (s3.1 - 0.12,
        s3.2 ++ ["Dataset has limited numeric coverage for correlation analysis."])
      else s3
  if strContains question.toLower "causal" || strContains question.toLower "cause"
  then (base.1 - 0.08,
    base.2 ++ ["Causal inference is approximate and should be validated with experiments."])
  else base

/-- `TrustRuntime.build_trust_layer`. -/
def build_trust_layer (question analysis_type sql : String)
    (row_count visualized_row_count : ℕ) (chart_config : ChartConfig)
    (profile : Option Profile) (latency_ms : ℚ) : TrustLayer :=
  let core := trustCore question analysis_type row_count visualized_row_count profile
  let c := core.1
  let l := core.2
  let chartType := chart_config.type.getD "unknown"
  let limitations :=
    if chartType = "pie" ∧ row_count > MAX_PIE_POINTS then l ++ [pieNote] else l
  { confidence_score := roundTo 2 (clamp c 0.05 0.98)
    limitations := limitations
    prov_sql := sql
    prov_rows_analyzed := row_count
    prov_rows_visualized := visualized_row_count
    prov_analysis_type := analysis_type
    prov_chart_type := chartType
    prov_latency_ms := roundTo 1 latency_ms }

/-! ## Primary-probe selection (`backend/services/analysis_runtime.py`) -/

/-- `MIN_STRONG_PRIMARY_ROWS`: the "strong" row-count threshold. -/
def MIN_STRONG_PRIMARY_ROWS : ℕ := 12

/-- An executed probe as consumed by `_select_primary_probe`. -/
structure Probe where
  probe_id : String
  row_count : ℕ
  chart_data : List Row
  chart_options : List ChartConfig
deriving DecidableEq, Repr

/-- Count of distinct stringified x-values in a probe's chart data,
read through the first chart option's `xKey`. -/
def uniqueXCount (p : Probe) : ℕ :=
  match (p.chart_options.headD ⟨none, none, none, none⟩).xKey with
  | some xk =>
    if xk ≠ "" then
      (((p.chart_data.filter (fun r => r.get xk ≠ Value.vNull)).map
          (fun r => (r.get xk).str)).dedup).length
    else 0
  | none => 0

/-- The evidence score of an executed probe. -/
def evidence_score (p : Probe) : ℚ :=
  let rowCount := p.row_count
  let chartRows := p.chart_data.length
  let score : ℚ :=
    (min rowCount 500 : ℕ) + (min chartRows 300 : ℕ) * (0.5 : ℚ) +
      (min (uniqueXCount p) 120 : ℕ) * (1.5 : ℚ)
  if rowCount ≤ 2 then score - 160
  else if rowCount < MIN_STRONG_PRIMARY_ROWS then score - 60
  else score

/-- Python `max(probes, key=evidence_score)`: the first probe
attaining the maximal score. -/
def strongestProbe (p0 : Probe) (rest : List Probe) : Probe :=
  rest.foldl (fun best p => if evidence_score p > evidence_score best then p else best) p0

/-- `AnalysisRuntime._select_primary_probe`: re-validate the oracle's
requested probe against the evidence heuristic. -/
def select_primary_probe (requested : String) (executed : List Probe) : Except String Probe :=
  match executed with
  | [] => Except.error "No executed probes are available."
  | p0 :: rest =>
    let preferred := (executed.reverse).find? (fun p => p.probe_id = requested)
    let strongest := strongestProbe p0 rest
    match preferred with
    | none => Except.ok strongest
    | some pref =>
      if pref.row_count = 0 ∧ strongest.row_count > 0 then Except.ok strongest
      else if pref.row_count < MIN_STRONG_PRIMARY_ROWS ∧
          MIN_STRONG_PRIMARY_ROWS ≤ strongest.row_count ∧
          evidence_score pref + 20 ≤ evidence_score strongest then Except.ok strongest
      else Except.ok pref

/-! ## SQL Safety Gate (`backend/services/data_service.py`) -/

/-- Characters matched by `\w` in the safety-gate regexes. -/
def wordChar (c : Char) : Bool := c.isAlpha || c.isDigit || c = '_'

/-- The character before the match position is a word boundary. -/
def boundaryBefore : Option Char → Bool
  | none => true
  | some c => !wordChar c

/-- The character after the match is a word boundary. -/
def boundaryAfter : List Char → Bool
  | [] => true
  | c :: _ => !wordChar c

/-- Occurrence of `word` delimited by `\b` boundaries, scanning the
text with the previous character as context. -/
def hasWordFrom (word : List Char) : Option Char → List Char → Bool
  | _, [] => false
  | prev, c :: rest =>
    (boundaryBefore prev && word.isPrefixOf (c :: rest) &&
      boundaryAfter ((c :: rest).drop word.length)) ||
    hasWordFrom word (some c) rest

/-- `\b(word)\b` search for any of the given words. -/
def hasAnyWord (s : String) (words : List String) : Bool :=
  words.any (fun w => hasWordFrom w.data none s.data)

/-- The alternatives of `FORBIDDEN_SQL_PATTERN`. -/
def FORBIDDEN_SQL_KEYWORDS : List String :=
  ["ATTACH", "CALL", "COMMENT", "COPY", "CREATE", "DELETE", "DETACH", "DROP",
   "EXEC", "EXECUTE", "EXPORT", "IMPORT", "INSERT", "INSTALL", "LOAD", "MERGE",
   "PRAGMA", "REPLACE", "TRUNCATE", "UPDATE", "VACUUM"]

/-- The alternatives of `FORBIDDEN_IO_PATTERN`, uppercased because the
gate scans the uppercased statement case-insensitively. -/
def FORBIDDEN_IO_WORDS : List String :=
  ["READ_CSV", "READ_JSON", "READ_PARQUET", "GLOB", "HTTPFS"]

/-- `normalize_sql`: trim, drop one trailing semicolon, trim again. -/
def normalize_sql (sql : String) : String :=
  let q := sql.trim
  if q.endsWith ";" then (q.dropRight 1).trim else q

/-- `validate_sql`: accept only a single read-only SELECT/CTE
statement free of comments, DDL/DML/admin keywords and file-I/O table
functions. -/
def validate_sql (sql : String) : Bool :=
  let q := normalize_sql sql
  let qU := q.toUpper
  if q = "" then false
  else if q.contains ';' then false
  else if strContains q "--" || strContains q "/*" then false
  else if !(qU.startsWith "SELECT" || qU.startsWith "WITH") then false
  else if hasAnyWord qU FORBIDDEN_SQL_KEYWORDS then false
  else if hasAnyWord qU FORBIDDEN_IO_WORDS then false
  else true

/-! ## ML Runtime regression preparation (`backend/services/runtime/ml.py`) -/

/-- A tabular dataset: ordered column names and JSON-style rows. -/
structure Frame where
  cols : List String
  rows : List Row
deriving DecidableEq, Repr

/-- The cell values of one column. -/
def Frame.col (f : Frame) (c : String) : List Value :=
  f.rows.map (fun r => r.get c)

/-- Model of a pandas numeric dtype: every cell a number or null. -/
def numericDtype (vs : List Value) : Bool :=
  vs.all (fun v => match v with
    | Value.vNum _ => true
    | Value.vNull => true
    | _ => false)

/-- `pd.to_numeric(value, errors="coerce")` on one cell. -/
def coerceNumeric : Value → Option ℚ
  | Value.vNum q => some q
  | Value.vStr s => parseFloat s
  | Value.vBool b => some (if b then 1 else 0)
  | Value.vNull => none

/-- `MLRuntime._is_temporal_series`: not a numeric column, and at
least 80% of up to 200 sampled non-null values parse as date/time. -/
def isTemporalSeries (vs : List Value) : Bool :=
  if numericDtype vs then false
  else
    let sample := ((vs.filter (fun v => v ≠ Value.vNull)).map Value.str).take 200
    if sample.isEmpty then false
    else
      (((sample.filter (fun s => (parseIsoDateTime s).isSome)).length : ℚ) /
        (sample.length : ℚ)) ≥ 4 / 5

/-- `Series.nunique(dropna=True)`. -/
def nuniqueVals (vs : List Value) : ℕ :=
  ((vs.filter (fun v => v ≠ Value.vNull)).dedup).length

/-- `MLRuntime._select_default_feature_columns`: up to 12 columns
preferring numeric, then temporal, then low-cardinality categorical. -/
def autoSelectFeatures (f : Frame) (target : String) : List String :=
  let numeric := f.cols.filter (fun c => c ≠ target ∧ numericDtype (f.col c))
  let temporal := f.cols.filter (fun c => c ≠ target ∧ c ∉ numeric ∧ isTemporalSeries (f.col c))
  let categorical := f.cols.filter (fun c => c ≠ target ∧ c ∉ numeric ∧ c ∉ temporal)
  ((numeric.take 12) ++ temporal ++
    categorical.filter (fun c => nuniqueVals (f.col c) ≤ 20)).take 12

/-- The requested feature list: the caller's non-empty list minus the
target, else the auto-selected defaults. -/
def resolveRequested (f : Frame) (target : String) (features : Option (List String)) :
    List String :=
  match features with
  | some (c :: cs) => (c :: cs).filter (fun x => x ≠ target)
  | _ => autoSelectFeatures f target

/-- The sorted distinct non-null levels of a categorical column, as
`pd.get_dummies` orders them. -/
def dummyLevels (vs : List Value) : List Value :=
  ((vs.filter (fun v => v ≠ Value.vNull)).dedup).insertionSort
    (fun a b => a.str ≤ b.str)

/-- The encoded numeric columns one requested feature contributes:
temporal columns become one epoch-seconds column, numeric columns pass
through, categorical columns one-hot encode with the first level
dropped (null cells become all-zero indicator rows, not missing). -/
def encodedColsOf (f : Frame) (c : String) : List (List (Option ℚ)) :=
  let vs := f.col c
  if isTemporalSeries vs then
    [vs.map (fun v => match v with
      | Value.vNull => none
      | v => parseIsoDateTime v.str)]
  else if numericDtype vs then
    [vs.map coerceNumeric]
  else
    ((dummyLevels vs).drop 1).map (fun lvl =>
      vs.map (fun v =>
        if v = Value.vNull then some (0 : ℚ)
        else if v = lvl then some (1 : ℚ) else some (0 : ℚ)))

/-- All encoded feature columns of the resolved feature set. -/
def encodedCols (f : Frame) (target : String) (features : Option (List String)) :
    List (List (Option ℚ)) :=
  (resolveRequested f target features).foldr (fun c acc => encodedColsOf f c ++ acc) []

/-- Encoded feature count (`x.shape[1]`). -/
def encodedFeatureCount (f : Frame) (target : String) (features : Option (List String)) : ℕ :=
  (encodedCols f target features).length

/-- A row survives `dropna` on the combined frame when the target
coerces and every encoded feature cell is present. -/
def rowIsClean (tvals : List (Option ℚ)) (cols : List (List (Option ℚ))) (i : ℕ) : Bool :=
  (tvals.getD i none).isSome && cols.all (fun col => (col.getD i none).isSome)

/-- Clean row count after coercing to numeric and dropping incomplete
rows (`len(combined)`). -/
def cleanRowCount (f : Frame) (target : String) (features : Option (List String)) : ℕ :=
  let tvals := (f.col target).map coerceNumeric
  let cols := encodedCols f target features
  ((List.range f.rows.length).filter (fun i => rowIsClean tvals cols i)).length

/-- The data `_prepare_regression_data` hands to the solver, reduced
to the quantities the validation thresholds consult. -/
structure RegPrepared where
  cleaned_row_count : ℕ
  feature_count : ℕ
deriving DecidableEq, Repr

/-- `MLRuntime._prepare_regression_data`: validation chain guarding
the regression fit; every raise is a user-facing validation error. -/
def prepare_regression_data (f : Frame) (target : String) (features : Option (List String)) :
    Except String RegPrepared :=
  if target ∉ f.cols then
    Except.error "Target column was not found in the dataset."
  else
    let requested := resolveRequested f target features
    if requested.isEmpty then
      Except.error "No usable feature columns found for regression."
    else if requested.any (fun c => c ∉ f.cols) then
      Except.error "Feature columns not found."
    else
      let cols := encodedCols f target features
      if cols.length = 0 ∨ f.rows.length = 0 then
        Except.error "Feature encoding produced no usable numeric columns."
      else
        let clean := cleanRowCount f target features
        if clean < 25 then
          Except.error "Not enough clean rows to run regression (need at least 25)."
        else if cols.length < 1 then
          Except.error "Regression requires at least one feature."
        else if clean ≤ cols.length + 5 then
          Except.error "Not enough rows for stable regression given selected feature count."
        else Except.ok ⟨clean, cols.length⟩

/-- Whether a computation failed with a validation error. -/
def isErrB {ε α : Type} : Except ε α → Bool
  | Except.error _ => true
  | Except.ok _ => false

/-! ## Statement helpers and concrete fixtures -/

/-- Total of the parsed y-values over the aggregable rows (rows whose
x-value is null or whose y-value is not numeric contribute nothing). -/
def ySum (data : List Row) (xKey yKey : String) : ℚ :=
  ((data.filterMap (parsedEntry xKey yKey)).map Prod.snd).sum

/-- Number of distinct x-labels among the aggregable rows. -/
def distinctXLabels (data : List Row) (xKey yKey : String) : ℕ :=
  (((data.filterMap (parsedEntry xKey yKey)).map Prod.fst).dedup).length

/-- Bucket dict built directly from pre-parsed (label, value) entries. -/
def bucketsOf (es : List (String × ℚ)) : List (String × ℚ) :=
  es.foldl (fun b p => bucketAdd b p.1 p.2) []

/-- The evidence-score formula exactly as the specification claim
words it, with the two penalties subtracted independently: 160
whenever `row_count ≤ 2` and 60 whenever `row_count < 12`. -/
def claimedEvidenceScore (p : Probe) : ℚ :=
  (min p.row_count 500 : ℕ) + (min p.chart_data.length 300 : ℕ) * (0.5 : ℚ) +
    (min (uniqueXCount p) 120 : ℕ) * (1.5 : ℚ) -
    (if p.row_count ≤ 2 then 160 else 0) -
    (if p.row_count < MIN_STRONG_PRIMARY_ROWS then 60 else 0)

/-- Two-digit day rendering used by the probe fixture dates. -/
def twoDigit (n : ℕ) : String := (if n < 10 then "0" else "") ++ toString n

/-- Fixture: the sparse requested probe (1 row) of the selection test. -/
def probeSparse : Probe :=
  ⟨"probe_1", 1, [[("metric", Value.vStr "total"), ("value", Value.vNum 100)]],
    [⟨some "bar", some "metric", some "value", none⟩]⟩

/-- Fixture: the rich competing probe (180 rows, 39 dated chart rows). -/
def probeRich : Probe :=
  ⟨"probe_2", 180,
    (List.range 39).map (fun d =>
      [("date", Value.vStr ("2025-01-" ++ twoDigit (d + 1))), ("value", Value.vNum (d + 1))]),
    [⟨some "line", some "date", some "value", none⟩]⟩

/-- Fixture: the strong requested probe (130 rows, 30 chart rows). -/
def probeStrongA : Probe :=
  ⟨"probe_1", 130,
    (List.range 30).map (fun i =>
      [("region", Value.vStr ("R" ++ toString i)), ("value", Value.vNum i)]),
    [⟨some "bar", some "region", some "value", none⟩]⟩

/-- Fixture: the weaker strong probe (90 rows, 20 chart rows). -/
def probeStrongB : Probe :=
  ⟨"probe_2", 90,
    (List.range 20).map (fun i =>
      [("region", Value.vStr ("R" ++ toString i)), ("value", Value.vNum i)]),
    [⟨some "bar", some "region", some "value", none⟩]⟩

/-- Fixture: a probe with a tiny row count and no chart payload. -/
def probeTiny : Probe := ⟨"p", 1, [], []⟩

/-- Fixture: ten distinct rows for the even-sampling check. -/
def rowsTen : List Row := (List.range 10).map (fun i => [("i", Value.vNum i)])

/-- Fixture: one row with a temporal column `t` and a categorical
column `c`, exercising the line-chart temporal override. -/
def rowsTemporalCat : List Row := [[("t", Value.vStr "2025-01-01"), ("c", Value.vStr "x")]]

/-- Fixture: a line config whose x is the categorical column and whose
y is the temporal column. -/
def baseLineCfg : ChartConfig := ⟨some "line", some "c", some "t", none⟩

/-- Fixture: thirteen rows that all carry the same single category. -/
def rowsOneCat : List Row :=
  (List.range 13).map (fun _ => [("cat", Value.vStr "a"), ("val", Value.vNum 1)])

/-- Fixture: a pie chart over `cat` and `val`. -/
def pieCfg : ChartConfig := ⟨some "pie", some "cat", some "val", none⟩

/-- Fixture: the six-row regression frame of the repository test. -/
def frameSix : Frame :=
  ⟨["feature_a", "feature_b", "target"],
    (List.range 6).map (fun i =>
      [("feature_a", Value.vNum (i + 1)), ("feature_b", Value.vNum (6 - i)),
       ("target", Value.vNum (2 * (i + 1)))])⟩

/-- Fixture: four rows over three distinct categories for the
aggregation conservation check. -/
def aggRows : List Row :=
  [[("x", Value.vStr "a"), ("y", Value.vNum 1)],
   [("x", Value.vStr "b"), ("y", Value.vNum 5)],
   [("x", Value.vStr "c"), ("y", Value.vNum 3)],
   [("x", Value.vStr "a"), ("y", Value.vNum 2)]]

/-- Fixture: rows with a numeric, an all-null and a categorical column. -/
def rowsMixed : List Row :=
  [[("n", Value.vNum 1), ("z", Value.vNull), ("c", Value.vStr "a")],
   [("n", Value.vNum 2), ("z", Value.vNull), ("c", Value.vStr "b")]]

/-! ## Theorems -/

/-- C1: in SELECT-PRIMARY, with probe_1 at 1 row and probe_2 at 180
rows, requesting probe_1 selects probe_2; with probe_1 at 130 rows and
probe_2 at 90 rows (both at or above the strong threshold of 12),
requesting probe_1 keeps probe_1. -/
theorem C1_primary_probe_selection :
    select_primary_probe "probe_1" [probeSparse, probeRich] = Except.ok probeRich ∧
    select_primary_probe "probe_1" [probeStrongA, probeStrongB] = Except.ok probeStrongA := by
  constructor <;> with_unfolding_all rfl

/-- C2 counterexample: on a probe with `row_count = 1` the score the
code computes is `-159` (only the 160 penalty applies, via `elif`),
while the claimed formula with both penalties yields `-219`. -/
theorem C2_formula_cex :
    evidence_score probeTiny = -159 ∧ claimedEvidenceScore probeTiny = -219 := by
  constructor <;> with_unfolding_all rfl

/-- C2 amended: the evidence score equals the capped base sum minus a
penalty of 160 whenever `row_count ≤ 2`, and minus a penalty of 60
whenever `2 < row_count < 12`; the two penalties never stack. -/
theorem C2_evidence_score_formula (p : Probe) :
    evidence_score p =
      (min p.row_count 500 : ℕ) + (min p.chart_data.length 300 : ℕ) * (0.5 : ℚ) +
        (min (uniqueXCount p) 120 : ℕ) * (1.5 : ℚ) -
        (if p.row_count ≤ 2 then 160 else 0) -
        (if 2 < p.row_count ∧ p.row_count < 12 then 60 else 0) := by
  have h12 : MIN_STRONG_PRIMARY_ROWS = 12 := rfl
  unfold evidence_score
  rw [h12]
  by_cases h1 : p.row_count ≤ 2
  · have h2 : ¬(2 < p.row_count ∧ p.row_count < 12) := by omega
    simp only [if_pos h1, if_neg h2]
    ring
  · by_cases h3 : p.row_count < 12
    · have h4 : 2 < p.row_count ∧ p.row_count < 12 := by omega
      simp only [if_neg h1, if_pos h3, if_pos h4]
      ring
    · have h4 : ¬(2 < p.row_count ∧ p.row_count < 12) := by omega
      simp only [if_neg h1, if_neg h3, if_neg h4]
      ring

/-- C5: `sample_evenly` on ten distinct rows with cap 5 uses stride 2
and truncates to the cap, so the returned sample is rows 0,2,4,6,8 and
the final input row is not included (the code appends it and then cuts
it off), contradicting the specified always-include-final-row law. -/
theorem C5_final_row_dropped :
    sample_evenly rowsTen 5 =
      [[("i", Value.vNum 0)], [("i", Value.vNum 2)], [("i", Value.vNum 4)],
       [("i", Value.vNum 6)], [("i", Value.vNum 8)]] ∧
    [("i", Value.vNum 9)] ∈ rowsTen ∧
    [("i", Value.vNum 9)] ∉ sample_evenly rowsTen 5 := by
  refine ⟨?_, ?_, ?_⟩ <;> with_unfolding_all decide

/-- C3: the SQL safety gate accepts the two sample statements, rejects
the four unsafe ones, and in general rejects every statement that
normalizes to empty text, keeps a semicolon, keeps a comment marker,
does not start with SELECT or WITH, mentions a forbidden DDL/DML/admin
keyword, or mentions a file-I/O table function. -/
theorem C3_sql_gate :
    validate_sql "SELECT 1" = true ∧
    validate_sql "WITH x AS (SELECT 1) SELECT * FROM x" = true ∧
    validate_sql "DROP TABLE t" = false ∧
    validate_sql "SELECT 1; SELECT 2" = false ∧
    validate_sql "SELECT 1 -- x" = false ∧
    validate_sql "SELECT * FROM read_csv(\x27f.csv\x27)" = false ∧
    (∀ sql : String,
      (normalize_sql sql = "" ∨
        (normalize_sql sql).contains ';' = true ∨
        strContains (normalize_sql sql) "--" = true ∨
        strContains (normalize_sql sql) "/*" = true ∨
        ((normalize_sql sql).toUpper.startsWith "SELECT" = false ∧
          (normalize_sql sql).toUpper.startsWith "WITH" = false) ∨
        hasAnyWord (normalize_sql sql).toUpper FORBIDDEN_SQL_KEYWORDS = true ∨
        hasAnyWord (normalize_sql sql).toUpper FORBIDDEN_IO_WORDS = true) →
      validate_sql sql = false) := by
  refine ⟨?_, ?_, ?_, ?_, ?_, ?_, ?_⟩
  case _ => with_unfolding_all decide
  case _ => with_unfolding_all decide
  case _ => with_unfolding_all decide
  case _ => with_unfolding_all decide
  case _ => with_unfolding_all decide
  case _ => with_unfolding_all decide
  intro sql h
  simp only [validate_sql]
  split_ifs with h1 h2 h3 h4 h5 h6 <;> try rfl
  exfalso
  simp only [Bool.or_eq_true, Bool.not_eq_true'] at h1 h2 h3 h4 h5 h6 ⊢
  rcases h with h | h | h | h | ⟨ha, hb⟩ | h | h <;> simp_all

/-- C3 witness: the universal rejection clause applied to a concrete
statement that both fails the SELECT/WITH check and mentions a
forbidden keyword. -/
theorem C3_sql_gate_witness :
    validate_sql "PRAGMA database_list" = false :=
  C3_sql_gate.2.2.2.2.2.2 "PRAGMA database_list" (by with_unfolding_all decide)

/-- The clamp keeps any value inside its bounds. -/
theorem clamp_bounds (v : ℚ) : 0.05 ≤ clamp v 0.05 0.98 ∧ clamp v 0.05 0.98 ≤ 0.98 := by
  unfold clamp
  exact ⟨le_max_left _ _, max_le (by norm_num) (min_le_left _ _)⟩

/-- Rounding to two decimals keeps values inside `[0.05, 0.98]`. -/
theorem roundTo_two_bounds (q : ℚ) (h1 : (0.05 : ℚ) ≤ q) (h2 : q ≤ 0.98) :
    0.05 ≤ roundTo 2 q ∧ roundTo 2 q ≤ 0.98 := by
  unfold roundTo
  have habs := abs_sub_round (q * (10 : ℚ) ^ 2)
  rw [abs_le] at habs
  have hlow : (4.5 : ℚ) ≤ (round (q * (10 : ℚ) ^ 2) : ℚ) := by nlinarith [habs.1, habs.2]
  have hhigh : (round (q * (10 : ℚ) ^ 2) : ℚ) ≤ 98.5 := by nlinarith [habs.1, habs.2]
  have h4 : (4 : ℚ) < (round (q * (10 : ℚ) ^ 2) : ℚ) := lt_of_lt_of_le (by norm_num) hlow
  have hlo2 : (4 : ℤ) < round (q * (10 : ℚ) ^ 2) := by exact_mod_cast h4
  have h99 : (round (q * (10 : ℚ) ^ 2) : ℚ) < 99 := lt_of_le_of_lt hhigh (by norm_num)
  have hhi2 : round (q * (10 : ℚ) ^ 2) < (99 : ℤ) := by exact_mod_cast h99
  have hlo3 : (5 : ℚ) ≤ (round (q * (10 : ℚ) ^ 2) : ℚ) := by
    have : (5 : ℤ) ≤ round (q * (10 : ℚ) ^ 2) := hlo2
    exact_mod_cast this
  have hhi3 : (round (q * (10 : ℚ) ^ 2) : ℚ) ≤ 98 := by
    have : round (q * (10 : ℚ) ^ 2) ≤ (98 : ℤ) := by omega
    exact_mod_cast this
  have hps : (0 : ℚ) < (10 : ℚ) ^ 2 := by norm_num
  constructor
  · rw [le_div_iff₀ hps]
    norm_num at hlo3 ⊢
    linarith
  · rw [div_le_iff₀ hps]
    norm_num at hhi3 ⊢
    linarith

/-- C7: for every input, the confidence score of the trust layer lies
inside `[0.05, 0.98]`: the raw adjusted confidence is clamped and the
two-decimal rounding cannot leave the interval. -/
theorem C7_confidence_in_bounds (question analysis_type sql : String)
    (row_count visualized_row_count : ℕ) (chart_config : ChartConfig)
    (profile : Option Profile) (latency_ms : ℚ) :
    0.05 ≤ (build_trust_layer question analysis_type sql row_count visualized_row_count
        chart_config profile latency_ms).confidence_score ∧
      (build_trust_layer question analysis_type sql row_count visualized_row_count
        chart_config profile latency_ms).confidence_score ≤ 0.98 := by
  have hc : (build_trust_layer question analysis_type sql row_count visualized_row_count
      chart_config profile latency_ms).confidence_score =
      roundTo 2 (clamp (trustCore question analysis_type row_count
        visualized_row_count profile).1 0.05 0.98) := rfl
  rw [hc]
  have h := clamp_bounds (trustCore question analysis_type row_count
    visualized_row_count profile).1
  exact roundTo_two_bounds _ h.1 h.2

/-- The pie note differs from the sampling note at every row count. -/
theorem pieNote_ne_vizNote (v r : ℕ) : pieNote ≠ vizNote v r := by
  intro h
  have hd := congrArg (fun s => s.data.head?) h
  simp only [pieNote, vizNote, String.data_append, List.head?_append, List.head?_cons,
    Option.or] at hd
  exact absurd hd (by decide)

/-- The pie note differs from every fixed limitation string the
pre-pie adjustments can emit. -/
theorem pieNote_ne_fixed :
    pieNote ≠ "Query returned no rows." ∧
    pieNote ≠ "Small sample size may reduce reliability." ∧
    pieNote ≠ "No strongly typed temporal column detected for trend analysis." ∧
    pieNote ≠ "Dataset has limited numeric coverage for correlation analysis." ∧
    pieNote ≠ "Causal inference is approximate and should be validated with experiments." := by
  refine ⟨?_, ?_, ?_, ?_, ?_⟩ <;> with_unfolding_all decide

set_option maxHeartbeats 2000000 in
/-- The pie note never appears among the limitations produced before
the pie-cap check. -/
theorem pieNote_notin_trustCore (question analysis_type : String)
    (row_count visualized_row_count : ℕ) (profile : Option Profile) :
    pieNote ∉ (trustCore question analysis_type row_count visualized_row_count profile).2 := by
  obtain ⟨n1, n2, n3, n4, n5⟩ := pieNote_ne_fixed
  unfold trustCore
  simp only [apply_ite Prod.snd]
  split_ifs <;>
    simp_all [List.mem_append, List.mem_singleton, pieNote_ne_vizNote]

/-- The rendered chart type resolves to `"pie"` exactly when the
config's type entry is `"pie"`. -/
theorem chartType_getD_eq_pie (o : Option String) :
    o.getD "unknown" = "pie" ↔ o = some "pie" := by
  cases o with
  | none =>
    simp only [Option.getD_none, Option.getD_some]
    constructor
    · intro h; exact absurd h (by with_unfolding_all decide)
    · intro h; cases h
  | some t => simp [Option.getD_some]

/-- C8 counterexample: thirteen rows in one single category rendered
as a pie chart still get the pie limitation (the code tests the
analyzed row count, not how many categories the chart covers), so the
claimed "exactly when more categories than the cap" condition fails. -/
theorem C8_pie_note_cex :
    pieNote ∈ (build_trust_layer "q" "overview" "sql" 13
        ((optimize_data_for_chart rowsOneCat pieCfg).length) pieCfg none 0).limitations ∧
    distinctXLabels rowsOneCat "cat" "val" = 1 ∧
    (1 : ℕ) ≤ MAX_PIE_POINTS := by
  refine ⟨?_, ?_, ?_⟩ <;> with_unfolding_all decide

/-- C8 amended: the pie limitation is appended exactly when the chart
type is pie and the analyzed row count exceeds the pie cap of 12, and
the chart config never affects the confidence score. -/
theorem C8_pie_limitation (question analysis_type sql : String)
    (row_count visualized_row_count : ℕ) (chart_config : ChartConfig)
    (profile : Option Profile) (latency_ms : ℚ) :
    (pieNote ∈ (build_trust_layer question analysis_type sql row_count visualized_row_count
        chart_config profile latency_ms).limitations ↔
      chart_config.type = some "pie" ∧ row_count > MAX_PIE_POINTS) ∧
    (∀ cfg2 : ChartConfig,
      (build_trust_layer question analysis_type sql row_count visualized_row_count
        chart_config profile latency_ms).confidence_score =
      (build_trust_layer question analysis_type sql row_count visualized_row_count
        cfg2 profile latency_ms).confidence_score) := by
  constructor
  · have hl : (build_trust_layer question analysis_type sql row_count visualized_row_count
        chart_config profile latency_ms).limitations =
        if chart_config.type.getD "unknown" = "pie" ∧ row_count > MAX_PIE_POINTS
        then (trustCore question analysis_type row_count visualized_row_count profile).2 ++
          [pieNote]
        else (trustCore question analysis_type row_count visualized_row_count profile).2 := rfl
    rw [hl]
    by_cases hc : chart_config.type.getD "unknown" = "pie" ∧ row_count > MAX_PIE_POINTS
    · rw [if_pos hc]
      constructor
      · intro _
        exact ⟨(chartType_getD_eq_pie chart_config.type).mp hc.1, hc.2⟩
      · intro _
        exact List.mem_append_right _ (List.mem_singleton_self _)
    · rw [if_neg hc]
      constructor
      · intro hmem
        exact absurd hmem (pieNote_notin_trustCore question analysis_type row_count
          visualized_row_count profile)
      · rintro ⟨h1, h2⟩
        exact absurd ⟨(chartType_getD_eq_pie chart_config.type).mpr h1, h2⟩ hc
  · intro cfg2
    rfl

/-- C10: every column of the first sampled row is assigned to at most
one of the numeric / temporal / categorical role lists, and a column
whose sampled values are all null is assigned to none of them. -/
theorem C10_role_partition (data : List Row) (k : String) :
    (¬(k ∈ (infer_chart_columns data).1 ∧ k ∈ (infer_chart_columns data).2.1) ∧
     ¬(k ∈ (infer_chart_columns data).1 ∧ k ∈ (infer_chart_columns data).2.2) ∧
     ¬(k ∈ (infer_chart_columns data).2.1 ∧ k ∈ (infer_chart_columns data).2.2)) ∧
    ((∀ r ∈ data.take 200, r.get k = Value.vNull) →
      k ∉ (infer_chart_columns data).1 ∧ k ∉ (infer_chart_columns data).2.1 ∧
        k ∉ (infer_chart_columns data).2.2) := by
  cases data with
  | nil => simp [infer_chart_columns]
  | cons r0 rest =>
    constructor
    · simp only [infer_chart_columns, List.mem_filter, decide_eq_true_eq]
      refine ⟨?_, ?_, ?_⟩ <;> rintro ⟨⟨_, h1⟩, ⟨_, h2⟩⟩ <;>
        exact absurd (h1.symm.trans h2) (by decide)
    · intro hnull
      have hcc : colClass ((r0 :: rest).take 200) k = none := by
        unfold colClass
        have hfil : (((r0 :: rest).take 200).map (fun r => r.get k)).filter
            (fun v => v ≠ Value.vNull) = [] := by
          rw [List.filter_eq_nil_iff]
          intro v hv
          simp only [List.mem_map] at hv
          obtain ⟨r, hr, rfl⟩ := hv
          simp [hnull r hr]
        simp only [hfil]
        rfl
      simp only [infer_chart_columns, List.mem_filter, decide_eq_true_eq]
      refine ⟨?_, ?_, ?_⟩ <;> rintro ⟨_, h1⟩ <;> rw [hcc] at h1 <;> cases h1

/-- C10 witness: in the mixed fixture the all-null column `z` lands in
no role list while the numeric and categorical columns partition. -/
theorem C10_role_partition_witness :
    "z" ∉ (infer_chart_columns rowsMixed).1 ∧
    "z" ∉ (infer_chart_columns rowsMixed).2.1 ∧
    "z" ∉ (infer_chart_columns rowsMixed).2.2 :=
  (C10_role_partition rowsMixed "z").2 (by with_unfolding_all decide)

/-- Clean rows are a subset of the input rows. -/
theorem cleanRowCount_le_rows (f : Frame) (target : String) (features : Option (List String)) :
    cleanRowCount f target features ≤ f.rows.length := by
  unfold cleanRowCount
  calc ((List.range f.rows.length).filter
          (fun i => rowIsClean ((f.col target).map coerceNumeric)
            (encodedCols f target features) i)).length
      ≤ (List.range f.rows.length).length := List.length_filter_le _ _
    _ = f.rows.length := List.length_range _

/-- C9: regression preparation fails with a validation error whenever
fewer than 25 clean rows survive coercion and dropping, or the clean
row count is not greater than the encoded feature count plus 5; in
particular every 6-row dataset fails. -/
theorem C9_regression_validation :
    (∀ (f : Frame) (target : String) (features : Option (List String)),
      (cleanRowCount f target features < 25 ∨
        cleanRowCount f target features ≤ encodedFeatureCount f target features + 5) →
      isErrB (prepare_regression_data f target features) = true) ∧
    (∀ (f : Frame) (target : String) (features : Option (List String)),
      f.rows.length = 6 →
      isErrB (prepare_regression_data f target features) = true) := by
  have hpart1 : ∀ (f : Frame) (target : String) (features : Option (List String)),
      (cleanRowCount f target features < 25 ∨
        cleanRowCount f target features ≤ encodedFeatureCount f target features + 5) →
      isErrB (prepare_regression_data f target features) = true := by
    intro f target features h
    unfold encodedFeatureCount at h
    simp only [prepare_regression_data]
    split_ifs <;> first | rfl | (exfalso; omega)
  refine ⟨hpart1, ?_⟩
  intro f target features h6
  refine hpart1 f target features (Or.inl ?_)
  have := cleanRowCount_le_rows f target features
  omega

/-- C9 witness: the six-row regression frame of the repository test is
rejected. -/
theorem C9_regression_validation_witness :
    isErrB (prepare_regression_data frameSix "target" (some ["feature_a", "feature_b"])) = true :=
  C9_regression_validation.2 frameSix "target" (some ["feature_a", "feature_b"]) (by rfl)

/-- Adding to a bucket dict raises the total of the sums by the added
value. -/
theorem bucketAdd_snd_sum (b : List (String × ℚ)) (l : String) (q : ℚ) :
    ((bucketAdd b l q).map Prod.snd).sum = (b.map Prod.snd).sum + q := by
  induction b with
  | nil => simp [bucketAdd]
  | cons p rest ih =>
    obtain ⟨k, v⟩ := p
    by_cases h : k = l
    · simp only [bucketAdd, if_pos h, List.map_cons, List.sum_cons]
      ring
    · simp only [bucketAdd, if_neg h, List.map_cons, List.sum_cons, ih]
      ring

/-- Adding to a bucket dict keeps the key list, appending the label
only when it is new. -/
theorem bucketAdd_fst (b : List (String × ℚ)) (l : String) (q : ℚ) :
    (bucketAdd b l q).map Prod.fst =
      if l ∈ b.map Prod.fst then b.map Prod.fst else b.map Prod.fst ++ [l] := by
  induction b with
  | nil => simp [bucketAdd]
  | cons p rest ih =>
    obtain ⟨k, v⟩ := p
    by_cases h : k = l
    · simp [bucketAdd, h]
    · simp only [bucketAdd, if_neg h, List.map_cons, ih]
      by_cases h2 : l ∈ rest.map Prod.fst
      · simp [h2, List.mem_cons, Ne.symm h]
      · simp [h2, List.mem_cons, Ne.symm h]

/-- Folding entries into buckets accumulates the total of the values. -/
theorem bucketsFold_snd_sum (es : List (String × ℚ)) :
    ∀ b : List (String × ℚ),
      ((es.foldl (fun b p => bucketAdd b p.1 p.2) b).map Prod.snd).sum =
        (b.map Prod.snd).sum + (es.map Prod.snd).sum := by
  induction es with
  | nil => intro b; simp
  | cons p rest ih =>
    intro b
    simp only [List.foldl_cons, List.map_cons, List.sum_cons]
    rw [ih, bucketAdd_snd_sum]
    ring

/-- Folding entries into buckets preserves distinctness of the keys. -/
theorem bucketsFold_fst_nodup (es : List (String × ℚ)) :
    ∀ b : List (String × ℚ), (b.map Prod.fst).Nodup →
      ((es.foldl (fun b p => bucketAdd b p.1 p.2) b).map Prod.fst).Nodup := by
  induction es with
  | nil => intro b hb; simpa using hb
  | cons p rest ih =>
    intro b hb
    simp only [List.foldl_cons]
    refine ih _ ?_
    rw [bucketAdd_fst]
    split_ifs with h
    · exact hb
    · simp [List.nodup_append, hb, h]

/-- The key set of the folded buckets is the key set of the initial
dict united with the labels of the folded entries. -/
theorem bucketsFold_fst_toFinset (es : List (String × ℚ)) :
    ∀ b : List (String × ℚ),
      ((es.foldl (fun b p => bucketAdd b p.1 p.2) b).map Prod.fst).toFinset =
        (b.map Prod.fst).toFinset ∪ (es.map Prod.fst).toFinset := by
  induction es with
  | nil => intro b; simp
  | cons p rest ih =>
    intro b
    simp only [List.foldl_cons, List.map_cons, List.toFinset_cons]
    rw [ih, bucketAdd_fst]
    split_ifs with h
    · ext a
      simp only [Finset.mem_union, Finset.mem_insert, List.mem_toFinset]
      constructor
      · rintro (ha | ha)
        · exact Or.inl ha
        · exact Or.inr (Or.inr ha)
      · rintro (ha | rfl | ha)
        · exact Or.inl ha
        · exact Or.inl h
        · exact Or.inr ha
    · ext a
      simp only [List.toFinset_append, Finset.mem_union, List.mem_toFinset, Finset.mem_insert,
        List.mem_singleton]
      tauto

/-- The aggregation loop equals folding the pre-parsed entries. -/
theorem buildBuckets_eq_fold (data : List Row) (xKey yKey : String) :
    buildBuckets data xKey yKey = bucketsOf (data.filterMap (parsedEntry xKey yKey)) := by
  unfold buildBuckets bucketsOf
  suffices h : ∀ b : List (String × ℚ),
      data.foldl (fun b row => match parsedEntry xKey yKey row with
        | none => b
        | some (l, q) => bucketAdd b l q) b =
      (data.filterMap (parsedEntry xKey yKey)).foldl (fun b p => bucketAdd b p.1 p.2) b from
    h []
  induction data with
  | nil => intro b; rfl
  | cons r rs ih =>
    intro b
    simp only [List.foldl_cons, List.filterMap_cons]
    cases h : parsedEntry xKey yKey r with
    | none => simp only [h]; exact ih b
    | some p =>
      obtain ⟨l, q⟩ := p
      simp only [h, List.foldl_cons]
      exact ih _

/-- Bucket totals conserve the parsed y-sum of the input rows. -/
theorem buildBuckets_snd_sum (data : List Row) (xKey yKey : String) :
    ((buildBuckets data xKey yKey).map Prod.snd).sum = ySum data xKey yKey := by
  rw [buildBuckets_eq_fold]
  unfold bucketsOf ySum
  rw [bucketsFold_snd_sum]
  simp

/-- There is exactly one bucket per distinct x-label. -/
theorem buildBuckets_length (data : List Row) (xKey yKey : String) :
    (buildBuckets data xKey yKey).length = distinctXLabels data xKey yKey := by
  rw [buildBuckets_eq_fold]
  unfold bucketsOf distinctXLabels
  have hnd := bucketsFold_fst_nodup (data.filterMap (parsedEntry xKey yKey)) [] (by simp)
  have hts := bucketsFold_fst_toFinset (data.filterMap (parsedEntry xKey yKey)) []
  simp only [List.map_nil, List.toFinset_nil, Finset.empty_union] at hts
  have h1 : ((data.filterMap (parsedEntry xKey yKey)).foldl
      (fun b p => bucketAdd b p.1 p.2) []).length =
      (((data.filterMap (parsedEntry xKey yKey)).foldl
        (fun b p => bucketAdd b p.1 p.2) []).map Prod.fst).length := (List.length_map _ _).symm
  rw [h1, ← List.toFinset_card_of_nodup hnd, hts, List.card_toFinset]

/-- Reading the x-key of an output bucket row returns its label. -/
theorem mkOutRow_get_x (xKey yKey l : String) (v : ℚ) (hxy : xKey ≠ yKey) :
    (mkOutRow xKey yKey l v).get xKey = Value.vStr l := by
  unfold mkOutRow Row.get
  rw [if_neg hxy]
  simp

/-- An output bucket row parses back to its own label and value. -/
theorem parsedEntry_mkOutRow (xKey yKey l : String) (v : ℚ) (hxy : xKey ≠ yKey) :
    parsedEntry xKey yKey (mkOutRow xKey yKey l v) = some (l, v) := by
  unfold parsedEntry mkOutRow Row.get
  rw [if_neg hxy]
  simp [List.find?, hxy, Ne.symm hxy, Value.toFloat, Value.str]

/-- `ySum` distributes over row-list concatenation. -/
theorem ySum_append (xKey yKey : String) (u v : List Row) :
    ySum (u ++ v) xKey yKey = ySum u xKey yKey + ySum v xKey yKey := by
  unfold ySum
  simp [List.filterMap_append]

/-- The y-sum of rendered bucket rows is the total of their values. -/
theorem ySum_mkOutRows (xKey yKey : String) (hxy : xKey ≠ yKey) (ps : List (String × ℚ)) :
    ySum (ps.map (fun p => mkOutRow xKey yKey p.1 p.2)) xKey yKey = (ps.map Prod.snd).sum := by
  induction ps with
  | nil => simp [ySum]
  | cons p rest ih =>
    unfold ySum at ih ⊢
    simp only [List.map_cons, List.filterMap_cons, parsedEntry_mkOutRow _ _ _ _ hxy,
      List.map_cons, List.sum_cons, ih]

/-- C4: when the aggregable rows carry more distinct x-labels than the
cap, `aggregate_categories` returns exactly `cap` buckets, the last
bucket is the `"Other"` bucket, and the output y-values sum to the
parsed input y-values (rows with a null x or non-numeric y count for
nothing on either side). -/
theorem C4_aggregate_conservation (data : List Row) (xKey yKey : String) (maxPoints : ℕ)
    (hxy : xKey ≠ yKey) (hcap : 1 ≤ maxPoints)
    (hmany : maxPoints < distinctXLabels data xKey yKey) :
    (aggregate_categories data xKey yKey maxPoints).length = maxPoints ∧
    ((aggregate_categories data xKey yKey maxPoints).getLast?).map (fun r => r.get xKey) =
      some (Value.vStr "Other") ∧
    ySum (aggregate_categories data xKey yKey maxPoints) xKey yKey = ySum data xKey yKey := by
  have hperm := List.perm_insertionSort
    (fun a b : String × ℚ => |b.2| ≤ |a.2|) (buildBuckets data xKey yKey)
  set ranked := (buildBuckets data xKey yKey).insertionSort
    (fun a b : String × ℚ => |b.2| ≤ |a.2|) with hr
  have hlen : ranked.length = distinctXLabels data xKey yKey := by
    rw [hperm.length_eq, buildBuckets_length]
  have hsum : (ranked.map Prod.snd).sum = ySum data xKey yKey := by
    rw [(hperm.map Prod.snd).sum_eq, buildBuckets_snd_sum]
  have hgt : ¬(ranked.length ≤ maxPoints) := by omega
  have key : aggregate_categories data xKey yKey maxPoints =
      ((ranked.take (maxPoints - 1)).map (fun p => mkOutRow xKey yKey p.1 p.2)) ++
        [mkOutRow xKey yKey "Other" (((ranked.drop (maxPoints - 1)).map Prod.snd).sum)] := by
    simp only [aggregate_categories]
    rw [← hr, if_neg hgt]
  rw [key]
  refine ⟨?_, ?_, ?_⟩
  · have htk : maxPoints - 1 ≤ ranked.length := by omega
    simp only [List.length_append, List.length_map, List.length_take, List.length_cons,
      List.length_nil]
    omega
  · rw [List.getLast?_concat]
    simp [mkOutRow_get_x _ _ _ _ hxy]
  · rw [ySum_append, ySum_mkOutRows _ _ hxy]
    have hone : ySum [mkOutRow xKey yKey "Other"
        (((ranked.drop (maxPoints - 1)).map Prod.snd).sum)] xKey yKey =
        ((ranked.drop (maxPoints - 1)).map Prod.snd).sum := by
      unfold ySum
      simp [List.filterMap_cons, parsedEntry_mkOutRow _ _ _ _ hxy]
    rw [hone]
    have hsplit : ((ranked.take (maxPoints - 1)).map Prod.snd).sum +
        ((ranked.drop (maxPoints - 1)).map Prod.snd).sum = (ranked.map Prod.snd).sum := by
      rw [← List.sum_append, ← List.map_append, List.take_append_drop]
    rw [hsplit, hsum]

/-- C4 witness: four rows over three categories with cap 2 collapse to
two buckets whose totals conserve the input sum. -/
theorem C4_aggregate_conservation_witness :
    ("x" : String) ≠ "y" ∧ 1 ≤ 2 ∧ 2 < distinctXLabels aggRows "x" "y" ∧
    ((aggregate_categories aggRows "x" "y" 2).length = 2 ∧
      ((aggregate_categories aggRows "x" "y" 2).getLast?).map (fun r => r.get "x") =
        some (Value.vStr "Other") ∧
      ySum (aggregate_categories aggRows "x" "y" 2) "x" "y" = ySum aggRows "x" "y") :=
  ⟨by with_unfolding_all decide, by with_unfolding_all decide, by with_unfolding_all decide,
    C4_aggregate_conservation aggRows "x" "y" 2 (by with_unfolding_all decide)
      (by with_unfolding_all decide) (by with_unfolding_all decide)⟩

/-- The default x key is drawn from the known columns. -/
theorem pickDefaultX_mem (temporalKeys categoricalKeys keys : List String)
    (hT : temporalKeys ⊆ keys) (hC : categoricalKeys ⊆ keys) (hk : keys ≠ []) :
    pickDefaultX temporalKeys categoricalKeys keys ∈ keys := by
  unfold pickDefaultX
  cases temporalKeys with
  | cons t ts => exact hT (List.mem_cons_self t ts)
  | nil =>
    cases categoricalKeys with
    | cons c cs => exact hC (List.mem_cons_self c cs)
    | nil =>
      cases keys with
      | nil => exact absurd rfl hk
      | cons k ks => exact List.mem_cons_self k ks

/-- The selected x key is a known column. -/
theorem pickX_mem (baseX : Option String) (keys temporalKeys categoricalKeys : List String)
    (hT : temporalKeys ⊆ keys) (hC : categoricalKeys ⊆ keys) (hk : keys ≠ []) :
    pickX baseX keys temporalKeys categoricalKeys ∈ keys := by
  unfold pickX
  cases baseX with
  | none => exact pickDefaultX_mem _ _ _ hT hC hk
  | some k =>
    by_cases h : k ∈ keys
    · simpa [h]
    · simpa [h] using pickDefaultX_mem _ _ _ hT hC hk

/-- The recomputed y key is a known column. -/
theorem recomputeY_mem (xKey : String) (keys numericKeys : List String)
    (hN : numericKeys ⊆ keys) (hk : keys ≠ []) : recomputeY xKey keys numericKeys ∈ keys := by
  unfold recomputeY
  cases numericKeys with
  | cons c rest =>
    by_cases h : c = xKey
    · cases rest with
      | nil => simp only [if_pos h]; exact hN (List.mem_cons_self _ _)
      | cons c2 r2 => simp only [if_pos h]; exact hN (List.mem_cons_of_mem _ (List.mem_cons_self _ _))
    · simp only [if_neg h]; exact hN (List.mem_cons_self _ _)
  | nil =>
    cases keys with
    | nil => exact absurd rfl hk
    | cons k1 ks =>
      cases ks with
      | nil => exact List.mem_cons_self _ _
      | cons k2 ks2 => exact List.mem_cons_of_mem _ (List.mem_cons_self _ _)

/-- The selected y key is a known column. -/
theorem pickY_mem (baseY : Option String) (xKey : String) (keys numericKeys : List String)
    (hN : numericKeys ⊆ keys) (hk : keys ≠ []) :
    pickY baseY xKey keys numericKeys ∈ keys := by
  unfold pickY
  cases baseY with
  | none => exact recomputeY_mem _ _ _ hN hk
  | some k =>
    by_cases h : k ∈ keys ∧ k ≠ xKey
    · simpa [h] using h.1
    · simpa [h] using recomputeY_mem _ _ _ hN hk

/-- The resolved chart type is always supported. -/
theorem normChartType_mem (o : Option String) : normChartType o ∈ CHART_TYPES := by
  cases o with
  | none => simp [normChartType, CHART_TYPES]
  | some t =>
    by_cases h2 : t ∈ CHART_TYPES
    · simp only [normChartType]
      rw [if_pos h2]
      exact h2
    · simp only [normChartType]
      rw [if_neg h2]
      simp [CHART_TYPES]

/-- Keeping a supported chart type resolves to itself. -/
theorem normChartType_some (t : String) (h : t ∈ CHART_TYPES) : normChartType (some t) = t := by
  simp [normChartType, h]

/-- Stage 1 always yields a supported chart type. -/
theorem normStage1_type_mem (keys numericKeys temporalKeys categoricalKeys : List String)
    (base : ChartConfig) :
    (normStage1 keys numericKeys temporalKeys categoricalKeys base).1 ∈ CHART_TYPES := by
  simp only [normStage1]
  split_ifs with h
  · cases numericKeys with
    | nil => simp [CHART_TYPES]
    | cons a rest =>
      cases rest with
      | nil => simp [CHART_TYPES]
      | cons b r2 => simp [CHART_TYPES]
  · exact normChartType_mem base.type

/-- Stage 1 keys are known columns. -/
theorem normStage1_xy_mem (keys numericKeys temporalKeys categoricalKeys : List String)
    (base : ChartConfig) (hN : numericKeys ⊆ keys) (hT : temporalKeys ⊆ keys)
    (hC : categoricalKeys ⊆ keys) (hk : keys ≠ []) :
    (normStage1 keys numericKeys temporalKeys categoricalKeys base).2.1 ∈ keys ∧
    (normStage1 keys numericKeys temporalKeys categoricalKeys base).2.2 ∈ keys := by
  simp only [normStage1]
  split_ifs with h
  · cases numericKeys with
    | nil =>
      exact ⟨pickX_mem _ _ _ _ hT hC hk, pickY_mem _ _ _ _ (by simp) hk⟩
    | cons a rest =>
      cases rest with
      | nil => exact ⟨pickX_mem _ _ _ _ hT hC hk, pickY_mem _ _ _ _ hN hk⟩
      | cons b r2 =>
        refine ⟨hN (List.mem_cons_self _ _), hN (List.mem_cons_of_mem _ (List.mem_cons_self _ _))⟩
  · exact ⟨pickX_mem _ _ _ _ hT hC hk, pickY_mem _ _ _ _ hN hk⟩

/-- When stage 1 emits a scatter chart the x/y keys are the first two
numeric columns. -/
theorem normStage1_scatter (keys numericKeys temporalKeys categoricalKeys : List String)
    (base : ChartConfig)
    (h : (normStage1 keys numericKeys temporalKeys categoricalKeys base).1 = "scatter") :
    ∃ a b l, numericKeys = a :: b :: l ∧
      (normStage1 keys numericKeys temporalKeys categoricalKeys base).2.1 = a ∧
      (normStage1 keys numericKeys temporalKeys categoricalKeys base).2.2 = b := by
  simp only [normStage1] at h ⊢
  split_ifs at h ⊢ with hc
  · cases numericKeys with
    | nil => simp at h
    | cons a rest =>
      cases rest with
      | nil => simp at h
      | cons b r2 => exact ⟨a, b, r2, rfl, rfl, rfl⟩
  · exact absurd h hc

/-- Stage 2 never changes the chart type or the y key. -/
theorem normStage2_type (temporalKeys : List String) (s : String × String × String) :
    (normStage2 temporalKeys s).1 = s.1 ∧ (normStage2 temporalKeys s).2.2 = s.2.2 := by
  unfold normStage2
  split_ifs <;> simp

/-- Stage 2 keeps the x key among the known columns. -/
theorem normStage2_x_mem (keys temporalKeys : List String) (s : String × String × String)
    (hT : temporalKeys ⊆ keys) (hx : s.2.1 ∈ keys) :
    (normStage2 temporalKeys s).2.1 ∈ keys := by
  unfold normStage2
  split_ifs with h
  · rcases h with ⟨_, hne, _⟩
    cases temporalKeys with
    | nil => exact absurd rfl hne
    | cons t ts => exact hT (List.mem_cons_self t ts)
  · exact hx

/-- On a line or area chart with temporal columns available, stage 2
guarantees a temporal x key. -/
theorem normStage2_temporal (temporalKeys : List String) (s : String × String × String)
    (h1 : s.1 = "line" ∨ s.1 = "area") (h2 : temporalKeys ≠ []) :
    (normStage2 temporalKeys s).2.1 ∈ temporalKeys := by
  unfold normStage2
  split_ifs with h
  · cases temporalKeys with
    | nil => exact absurd rfl h2
    | cons t ts => exact List.mem_cons_self t ts
  · by_cases hx : s.2.1 ∈ temporalKeys
    · exact hx
    · exact absurd ⟨h1, h2, hx⟩ h

/-- Stage 2 is the identity on non-line/area charts. -/
theorem normStage2_of_not_linearea (temporalKeys : List String) (s : String × String × String)
    (h : ¬(s.1 = "line" ∨ s.1 = "area")) : normStage2 temporalKeys s = s := by
  unfold normStage2
  rw [if_neg]
  intro hc
  exact h hc.1

/-- The groupBy filter is idempotent. -/
theorem normGroup_idem (keys : List String) (xKey yKey : String) (groupBy : Option String) :
    normGroup keys xKey yKey (normGroup keys xKey yKey groupBy) =
      normGroup keys xKey yKey groupBy := by
  cases groupBy with
  | none => rfl
  | some g =>
    simp only [normGroup]
    split_ifs with h
    · simp [normGroup, h]
    · rfl

/-- Stage 2 is the identity when no temporal column exists. -/
theorem normStage2_nil (s : String × String × String) : normStage2 [] s = s := by
  unfold normStage2
  rw [if_neg]
  rintro ⟨_, hne, _⟩
  exact hne rfl

/-- Stage 2 is the identity when the x key is already temporal. -/
theorem normStage2_of_x_mem (temporalKeys : List String) (s : String × String × String)
    (hx : s.2.1 ∈ temporalKeys) : normStage2 temporalKeys s = s := by
  unfold normStage2
  rw [if_neg]
  rintro ⟨_, _, hnot⟩
  exact hnot hx

/-- The temporal x-override is idempotent. -/
theorem normStage2_idem (temporalKeys : List String) (s : String × String × String) :
    normStage2 temporalKeys (normStage2 temporalKeys s) = normStage2 temporalKeys s := by
  by_cases hl : (normStage2 temporalKeys s).1 = "line" ∨ (normStage2 temporalKeys s).1 = "area"
  · by_cases ht : temporalKeys = []
    · subst ht
      exact normStage2_nil _
    · exact normStage2_of_x_mem temporalKeys _
        (normStage2_temporal temporalKeys s
          (by rwa [(normStage2_type temporalKeys s).1] at hl) ht)
  · exact normStage2_of_not_linearea temporalKeys _ hl

/-- With no columns at all both selected keys collapse to the empty
string. -/
theorem normStage1_nil_keys (base : ChartConfig) :
    (normStage1 [] [] [] [] base).2.1 = "" ∧ (normStage1 [] [] [] [] base).2.2 = "" := by
  have hx : pickX base.xKey [] [] [] = "" := by
    unfold pickX pickDefaultX
    cases base.xKey with
    | none => rfl
    | some k => simp
  have hy : ∀ x, pickY base.yKey x [] [] = "" := by
    intro x
    unfold pickY recomputeY
    cases base.yKey with
    | none => rfl
    | some k => simp
  simp only [normStage1]
  split_ifs with h <;> exact ⟨hx, hy _⟩

/-- Re-running both selection stages on their own output (with any
groupBy in the base) reproduces the output, provided the output's x
and y keys differ. -/
theorem stages_idem (keys numericKeys temporalKeys categoricalKeys : List String)
    (base : ChartConfig) (g2 : Option String)
    (hN : numericKeys ⊆ keys) (hT : temporalKeys ⊆ keys) (hC : categoricalKeys ⊆ keys)
    (hxy : (normStage2 temporalKeys
        (normStage1 keys numericKeys temporalKeys categoricalKeys base)).2.1 ≠
      (normStage2 temporalKeys
        (normStage1 keys numericKeys temporalKeys categoricalKeys base)).2.2) :
    normStage2 temporalKeys (normStage1 keys numericKeys temporalKeys categoricalKeys
      ⟨some (normStage2 temporalKeys
          (normStage1 keys numericKeys temporalKeys categoricalKeys base)).1,
        some (normStage2 temporalKeys
          (normStage1 keys numericKeys temporalKeys categoricalKeys base)).2.1,
        some (normStage2 temporalKeys
          (normStage1 keys numericKeys temporalKeys categoricalKeys base)).2.2,
        g2⟩) =
      normStage2 temporalKeys (normStage1 keys numericKeys temporalKeys categoricalKeys base) := by
  have hk : keys ≠ [] := by
    intro hkeys
    subst hkeys
    have hN0 : numericKeys = [] := List.subset_nil.mp hN
    have hT0 : temporalKeys = [] := List.subset_nil.mp hT
    have hC0 : categoricalKeys = [] := List.subset_nil.mp hC
    subst hN0; subst hT0; subst hC0
    rw [normStage2_nil] at hxy
    obtain ⟨hx1, hy1⟩ := normStage1_nil_keys base
    exact hxy (hx1.trans hy1.symm)
  set s0 := normStage1 keys numericKeys temporalKeys categoricalKeys base with hs0
  set s := normStage2 temporalKeys s0 with hs
  have htp : s.1 = s0.1 := by rw [hs]; exact (normStage2_type temporalKeys s0).1
  have hyp : s.2.2 = s0.2.2 := by rw [hs]; exact (normStage2_type temporalKeys s0).2
  have hmem0 : s0.2.1 ∈ keys ∧ s0.2.2 ∈ keys := by
    rw [hs0]
    exact normStage1_xy_mem keys numericKeys temporalKeys categoricalKeys base hN hT hC hk
  have hx_mem : s.2.1 ∈ keys := by
    rw [hs]
    exact normStage2_x_mem keys temporalKeys s0 hT hmem0.1
  have hy_mem : s.2.2 ∈ keys := by rw [hyp]; exact hmem0.2
  have hs_type : s.1 ∈ CHART_TYPES := by
    rw [htp, hs0]
    exact normStage1_type_mem keys numericKeys temporalKeys categoricalKeys base
  have hpx : pickX (some s.2.1) keys temporalKeys categoricalKeys = s.2.1 := by
    simp only [pickX]
    rw [if_pos hx_mem]
  have hpy : pickY (some s.2.2) s.2.1 keys numericKeys = s.2.2 := by
    simp only [pickY]
    rw [if_pos ⟨hy_mem, fun he => hxy he.symm⟩]
  have hstage1 : normStage1 keys numericKeys temporalKeys categoricalKeys
      ⟨some s.1, some s.2.1, some s.2.2, g2⟩ = (s.1, s.2.1, s.2.2) := by
    simp only [normStage1, hpx, hpy, normChartType_some s.1 hs_type]
    split_ifs with hscat
    · obtain ⟨a, b, l, hNeq, hxa, hyb⟩ := normStage1_scatter keys numericKeys temporalKeys
        categoricalKeys base (by rw [← hs0, ← htp]; exact hscat)
      rw [← hs0] at hxa hyb
      have hss0 : s = s0 := by
        rw [hs]
        apply normStage2_of_not_linearea
        rw [← htp, hscat]
        simp
      rw [hNeq]
      rw [hscat, hss0, hxa, hyb]
    · rfl
  rw [hstage1]
  have heta : (s.1, s.2.1, s.2.2) = s := rfl
  rw [heta, hs]
  exact normStage2_idem temporalKeys s0

/-- C6 counterexample: on one row with a temporal column `t` and a
categorical column `c`, normalizing the line config with x = c and
y = t moves x onto the temporal column, colliding with y; the second
normalization then recomputes y, so the two passes disagree. -/
theorem C6_idempotence_cex :
    normalize_chart_config rowsTemporalCat (normalize_chart_config rowsTemporalCat baseLineCfg) ≠
      normalize_chart_config rowsTemporalCat baseLineCfg := by
  with_unfolding_all decide

/-- C6 amended: `normalize_chart_config` is idempotent whenever its
output keeps distinct x and y keys; the only non-idempotent inputs are
the x/y collisions introduced by the line/area temporal override. -/
theorem C6_normalize_idempotent (data : List Row) (base : ChartConfig)
    (h : (normalize_chart_config data base).xKey ≠ (normalize_chart_config data base).yKey) :
    normalize_chart_config data (normalize_chart_config data base) =
      normalize_chart_config data base := by
  cases data with
  | nil => exact absurd rfl h
  | cons r0 rest =>
    have hsub1 : (infer_chart_columns (r0 :: rest)).1 ⊆ r0.keys := by
      simp only [infer_chart_columns]
      exact fun a ha => List.mem_of_mem_filter ha
    have hsub2 : (infer_chart_columns (r0 :: rest)).2.1 ⊆ r0.keys := by
      simp only [infer_chart_columns]
      exact fun a ha => List.mem_of_mem_filter ha
    have hsub3 : (infer_chart_columns (r0 :: rest)).2.2 ⊆ r0.keys := by
      simp only [infer_chart_columns]
      exact fun a ha => List.mem_of_mem_filter ha
    have hxy2 : (normStage2 (infer_chart_columns (r0 :: rest)).2.1
      (normStage1 r0.keys (infer_chart_columns (r0 :: rest)).1 (infer_chart_columns (r0 :: rest)).2.1 (infer_chart_columns (r0 :: rest)).2.2 base)).2.1 ≠ (normStage2 (infer_chart_columns (r0 :: rest)).2.1
      (normStage1 r0.keys (infer_chart_columns (r0 :: rest)).1 (infer_chart_columns (r0 :: rest)).2.1 (infer_chart_columns (r0 :: rest)).2.2 base)).2.2 := fun he => h (congrArg Option.some he)
    have hmain : (normStage2 (infer_chart_columns (r0 :: rest)).2.1
      (normStage1 r0.keys (infer_chart_columns (r0 :: rest)).1 (infer_chart_columns (r0 :: rest)).2.1 (infer_chart_columns (r0 :: rest)).2.2
      (⟨some (normStage2 (infer_chart_columns (r0 :: rest)).2.1
      (normStage1 r0.keys (infer_chart_columns (r0 :: rest)).1 (infer_chart_columns (r0 :: rest)).2.1 (infer_chart_columns (r0 :: rest)).2.2 base)).1, some (normStage2 (infer_chart_columns (r0 :: rest)).2.1
      (normStage1 r0.keys (infer_chart_columns (r0 :: rest)).1 (infer_chart_columns (r0 :: rest)).2.1 (infer_chart_columns (r0 :: rest)).2.2 base)).2.1, some (normStage2 (infer_chart_columns (r0 :: rest)).2.1
      (normStage1 r0.keys (infer_chart_columns (r0 :: rest)).1 (infer_chart_columns (r0 :: rest)).2.1 (infer_chart_columns (r0 :: rest)).2.2 base)).2.2,
      normGroup r0.keys (normStage2 (infer_chart_columns (r0 :: rest)).2.1
      (normStage1 r0.keys (infer_chart_columns (r0 :: rest)).1 (infer_chart_columns (r0 :: rest)).2.1 (infer_chart_columns (r0 :: rest)).2.2 base)).2.1 (normStage2 (infer_chart_columns (r0 :: rest)).2.1
      (normStage1 r0.keys (infer_chart_columns (r0 :: rest)).1 (infer_chart_columns (r0 :: rest)).2.1 (infer_chart_columns (r0 :: rest)).2.2 base)).2.2 base.groupBy⟩ : ChartConfig))) = (normStage2 (infer_chart_columns (r0 :: rest)).2.1
      (normStage1 r0.keys (infer_chart_columns (r0 :: rest)).1 (infer_chart_columns (r0 :: rest)).2.1 (infer_chart_columns (r0 :: rest)).2.2 base)) :=
      stages_idem r0.keys (infer_chart_columns (r0 :: rest)).1 (infer_chart_columns (r0 :: rest)).2.1 (infer_chart_columns (r0 :: rest)).2.2 base
        (normGroup r0.keys (normStage2 (infer_chart_columns (r0 :: rest)).2.1
      (normStage1 r0.keys (infer_chart_columns (r0 :: rest)).1 (infer_chart_columns (r0 :: rest)).2.1 (infer_chart_columns (r0 :: rest)).2.2 base)).2.1 (normStage2 (infer_chart_columns (r0 :: rest)).2.1
      (normStage1 r0.keys (infer_chart_columns (r0 :: rest)).1 (infer_chart_columns (r0 :: rest)).2.1 (infer_chart_columns (r0 :: rest)).2.2 base)).2.2 base.groupBy) hsub1 hsub2 hsub3 hxy2
    have e2 : normalize_chart_config (r0 :: rest) base = (⟨some (normStage2 (infer_chart_columns (r0 :: rest)).2.1
      (normStage1 r0.keys (infer_chart_columns (r0 :: rest)).1 (infer_chart_columns (r0 :: rest)).2.1 (infer_chart_columns (r0 :: rest)).2.2 base)).1, some (normStage2 (infer_chart_columns (r0 :: rest)).2.1
      (normStage1 r0.keys (infer_chart_columns (r0 :: rest)).1 (infer_chart_columns (r0 :: rest)).2.1 (infer_chart_columns (r0 :: rest)).2.2 base)).2.1, some (normStage2 (infer_chart_columns (r0 :: rest)).2.1
      (normStage1 r0.keys (infer_chart_columns (r0 :: rest)).1 (infer_chart_columns (r0 :: rest)).2.1 (infer_chart_columns (r0 :: rest)).2.2 base)).2.2,
      normGroup r0.keys (normStage2 (infer_chart_columns (r0 :: rest)).2.1
      (normStage1 r0.keys (infer_chart_columns (r0 :: rest)).1 (infer_chart_columns (r0 :: rest)).2.1 (infer_chart_columns (r0 :: rest)).2.2 base)).2.1 (normStage2 (infer_chart_columns (r0 :: rest)).2.1
      (normStage1 r0.keys (infer_chart_columns (r0 :: rest)).1 (infer_chart_columns (r0 :: rest)).2.1 (infer_chart_columns (r0 :: rest)).2.2 base)).2.2 base.groupBy⟩ : ChartConfig) := rfl
    rw [e2]
    show ChartConfig.mk (some (normStage2 (infer_chart_columns (r0 :: rest)).2.1
      (normStage1 r0.keys (infer_chart_columns (r0 :: rest)).1 (infer_chart_columns (r0 :: rest)).2.1 (infer_chart_columns (r0 :: rest)).2.2
      (⟨some (normStage2 (infer_chart_columns (r0 :: rest)).2.1
      (normStage1 r0.keys (infer_chart_columns (r0 :: rest)).1 (infer_chart_columns (r0 :: rest)).2.1 (infer_chart_columns (r0 :: rest)).2.2 base)).1, some (normStage2 (infer_chart_columns (r0 :: rest)).2.1
      (normStage1 r0.keys (infer_chart_columns (r0 :: rest)).1 (infer_chart_columns (r0 :: rest)).2.1 (infer_chart_columns (r0 :: rest)).2.2 base)).2.1, some (normStage2 (infer_chart_columns (r0 :: rest)).2.1
      (normStage1 r0.keys (infer_chart_columns (r0 :: rest)).1 (infer_chart_columns (r0 :: rest)).2.1 (infer_chart_columns (r0 :: rest)).2.2 base)).2.2,
      normGroup r0.keys (normStage2 (infer_chart_columns (r0 :: rest)).2.1
      (normStage1 r0.keys (infer_chart_columns (r0 :: rest)).1 (infer_chart_columns (r0 :: rest)).2.1 (infer_chart_columns (r0 :: rest)).2.2 base)).2.1 (normStage2 (infer_chart_columns (r0 :: rest)).2.1
      (normStage1 r0.keys (infer_chart_columns (r0 :: rest)).1 (infer_chart_columns (r0 :: rest)).2.1 (infer_chart_columns (r0 :: rest)).2.2 base)).2.2 base.groupBy⟩ : ChartConfig))).1) (some (normStage2 (infer_chart_columns (r0 :: rest)).2.1
      (normStage1 r0.keys (infer_chart_columns (r0 :: rest)).1 (infer_chart_columns (r0 :: rest)).2.1 (infer_chart_columns (r0 :: rest)).2.2
      (⟨some (normStage2 (infer_chart_columns (r0 :: rest)).2.1
      (normStage1 r0.keys (infer_chart_columns (r0 :: rest)).1 (infer_chart_columns (r0 :: rest)).2.1 (infer_chart_columns (r0 :: rest)).2.2 base)).1, some (normStage2 (infer_chart_columns (r0 :: rest)).2.1
      (normStage1 r0.keys (infer_chart_columns (r0 :: rest)).1 (infer_chart_columns (r0 :: rest)).2.1 (infer_chart_columns (r0 :: rest)).2.2 base)).2.1, some (normStage2 (infer_chart_columns (r0 :: rest)).2.1
      (normStage1 r0.keys (infer_chart_columns (r0 :: rest)).1 (infer_chart_columns (r0 :: rest)).2.1 (infer_chart_columns (r0 :: rest)).2.2 base)).2.2,
      normGroup r0.keys (normStage2 (infer_chart_columns (r0 :: rest)).2.1
      (normStage1 r0.keys (infer_chart_columns (r0 :: rest)).1 (infer_chart_columns (r0 :: rest)).2.1 (infer_chart_columns (r0 :: rest)).2.2 base)).2.1 (normStage2 (infer_chart_columns (r0 :: rest)).2.1
      (normStage1 r0.keys (infer_chart_columns (r0 :: rest)).1 (infer_chart_columns (r0 :: rest)).2.1 (infer_chart_columns (r0 :: rest)).2.2 base)).2.2 base.groupBy⟩ : ChartConfig))).2.1) (some (normStage2 (infer_chart_columns (r0 :: rest)).2.1
      (normStage1 r0.keys (infer_chart_columns (r0 :: rest)).1 (infer_chart_columns (r0 :: rest)).2.1 (infer_chart_columns (r0 :: rest)).2.2
      (⟨some (normStage2 (infer_chart_columns (r0 :: rest)).2.1
      (normStage1 r0.keys (infer_chart_columns (r0 :: rest)).1 (infer_chart_columns (r0 :: rest)).2.1 (infer_chart_columns (r0 :: rest)).2.2 base)).1, some (normStage2 (infer_chart_columns (r0 :: rest)).2.1
      (normStage1 r0.keys (infer_chart_columns (r0 :: rest)).1 (infer_chart_columns (r0 :: rest)).2.1 (infer_chart_columns (r0 :: rest)).2.2 base)).2.1, some (normStage2 (infer_chart_columns (r0 :: rest)).2.1
      (normStage1 r0.keys (infer_chart_columns (r0 :: rest)).1 (infer_chart_columns (r0 :: rest)).2.1 (infer_chart_columns (r0 :: rest)).2.2 base)).2.2,
      normGroup r0.keys (normStage2 (infer_chart_columns (r0 :: rest)).2.1
      (normStage1 r0.keys (infer_chart_columns (r0 :: rest)).1 (infer_chart_columns (r0 :: rest)).2.1 (infer_chart_columns (r0 :: rest)).2.2 base)).2.1 (normStage2 (infer_chart_columns (r0 :: rest)).2.1
      (normStage1 r0.keys (infer_chart_columns (r0 :: rest)).1 (infer_chart_columns (r0 :: rest)).2.1 (infer_chart_columns (r0 :: rest)).2.2 base)).2.2 base.groupBy⟩ : ChartConfig))).2.2)
        (normGroup r0.keys (normStage2 (infer_chart_columns (r0 :: rest)).2.1
      (normStage1 r0.keys (infer_chart_columns (r0 :: rest)).1 (infer_chart_columns (r0 :: rest)).2.1 (infer_chart_columns (r0 :: rest)).2.2
      (⟨some (normStage2 (infer_chart_columns (r0 :: rest)).2.1
      (normStage1 r0.keys (infer_chart_columns (r0 :: rest)).1 (infer_chart_columns (r0 :: rest)).2.1 (infer_chart_columns (r0 :: rest)).2.2 base)).1, some (normStage2 (infer_chart_columns (r0 :: rest)).2.1
      (normStage1 r0.keys (infer_chart_columns (r0 :: rest)).1 (infer_chart_columns (r0 :: rest)).2.1 (infer_chart_columns (r0 :: rest)).2.2 base)).2.1, some (normStage2 (infer_chart_columns (r0 :: rest)).2.1
      (normStage1 r0.keys (infer_chart_columns (r0 :: rest)).1 (infer_chart_columns (r0 :: rest)).2.1 (infer_chart_columns (r0 :: rest)).2.2 base)).2.2,
      normGroup r0.keys (normStage2 (infer_chart_columns (r0 :: rest)).2.1
      (normStage1 r0.keys (infer_chart_columns (r0 :: rest)).1 (infer_chart_columns (r0 :: rest)).2.1 (infer_chart_columns (r0 :: rest)).2.2 base)).2.1 (normStage2 (infer_chart_columns (r0 :: rest)).2.1
      (normStage1 r0.keys (infer_chart_columns (r0 :: rest)).1 (infer_chart_columns (r0 :: rest)).2.1 (infer_chart_columns (r0 :: rest)).2.2 base)).2.2 base.groupBy⟩ : ChartConfig))).2.1 (normStage2 (infer_chart_columns (r0 :: rest)).2.1
      (normStage1 r0.keys (infer_chart_columns (r0 :: rest)).1 (infer_chart_columns (r0 :: rest)).2.1 (infer_chart_columns (r0 :: rest)).2.2
      (⟨some (normStage2 (infer_chart_columns (r0 :: rest)).2.1
      (normStage1 r0.keys (infer_chart_columns (r0 :: rest)).1 (infer_chart_columns (r0 :: rest)).2.1 (infer_chart_columns (r0 :: rest)).2.2 base)).1, some (normStage2 (infer_chart_columns (r0 :: rest)).2.1
      (normStage1 r0.keys (infer_chart_columns (r0 :: rest)).1 (infer_chart_columns (r0 :: rest)).2.1 (infer_chart_columns (r0 :: rest)).2.2 base)).2.1, some (normStage2 (infer_chart_columns (r0 :: rest)).2.1
      (normStage1 r0.keys (infer_chart_columns (r0 :: rest)).1 (infer_chart_columns (r0 :: rest)).2.1 (infer_chart_columns (r0 :: rest)).2.2 base)).2.2,
      normGroup r0.keys (normStage2 (infer_chart_columns (r0 :: rest)).2.1
      (normStage1 r0.keys (infer_chart_columns (r0 :: rest)).1 (infer_chart_columns (r0 :: rest)).2.1 (infer_chart_columns (r0 :: rest)).2.2 base)).2.1 (normStage2 (infer_chart_columns (r0 :: rest)).2.1
      (normStage1 r0.keys (infer_chart_columns (r0 :: rest)).1 (infer_chart_columns (r0 :: rest)).2.1 (infer_chart_columns (r0 :: rest)).2.2 base)).2.2 base.groupBy⟩ : ChartConfig))).2.2
          (normGroup r0.keys (normStage2 (infer_chart_columns (r0 :: rest)).2.1
      (normStage1 r0.keys (infer_chart_columns (r0 :: rest)).1 (infer_chart_columns (r0 :: rest)).2.1 (infer_chart_columns (r0 :: rest)).2.2 base)).2.1 (normStage2 (infer_chart_columns (r0 :: rest)).2.1
      (normStage1 r0.keys (infer_chart_columns (r0 :: rest)).1 (infer_chart_columns (r0 :: rest)).2.1 (infer_chart_columns (r0 :: rest)).2.2 base)).2.2 base.groupBy)) =
      ChartConfig.mk (some (normStage2 (infer_chart_columns (r0 :: rest)).2.1
      (normStage1 r0.keys (infer_chart_columns (r0 :: rest)).1 (infer_chart_columns (r0 :: rest)).2.1 (infer_chart_columns (r0 :: rest)).2.2 base)).1) (some (normStage2 (infer_chart_columns (r0 :: rest)).2.1
      (normStage1 r0.keys (infer_chart_columns (r0 :: rest)).1 (infer_chart_columns (r0 :: rest)).2.1 (infer_chart_columns (r0 :: rest)).2.2 base)).2.1) (some (normStage2 (infer_chart_columns (r0 :: rest)).2.1
      (normStage1 r0.keys (infer_chart_columns (r0 :: rest)).1 (infer_chart_columns (r0 :: rest)).2.1 (infer_chart_columns (r0 :: rest)).2.2 base)).2.2)
        (normGroup r0.keys (normStage2 (infer_chart_columns (r0 :: rest)).2.1
      (normStage1 r0.keys (infer_chart_columns (r0 :: rest)).1 (infer_chart_columns (r0 :: rest)).2.1 (infer_chart_columns (r0 :: rest)).2.2 base)).2.1 (normStage2 (infer_chart_columns (r0 :: rest)).2.1
      (normStage1 r0.keys (infer_chart_columns (r0 :: rest)).1 (infer_chart_columns (r0 :: rest)).2.1 (infer_chart_columns (r0 :: rest)).2.2 base)).2.2 base.groupBy)
    rw [hmain, normGroup_idem r0.keys (normStage2 (infer_chart_columns (r0 :: rest)).2.1
      (normStage1 r0.keys (infer_chart_columns (r0 :: rest)).1 (infer_chart_columns (r0 :: rest)).2.1 (infer_chart_columns (r0 :: rest)).2.2 base)).2.1 (normStage2 (infer_chart_columns (r0 :: rest)).2.1
      (normStage1 r0.keys (infer_chart_columns (r0 :: rest)).1 (infer_chart_columns (r0 :: rest)).2.1 (infer_chart_columns (r0 :: rest)).2.2 base)).2.2 base.groupBy]

/-- C6 witness: on the temporal/categorical fixture a base config
whose keys already fit is reproduced unchanged by a second pass. -/
theorem C6_normalize_idempotent_witness :
    normalize_chart_config rowsTemporalCat
        (normalize_chart_config rowsTemporalCat ⟨some "bar", some "c", some "t", none⟩) =
      normalize_chart_config rowsTemporalCat ⟨some "bar", some "c", some "t", none⟩ :=
  C6_normalize_idempotent rowsTemporalCat ⟨some "bar", some "c", some "t", none⟩
    (by with_unfolding_all decide)

end DataAnalyst
